import Mathlib

/-!
Medicine tracker backend: session tokens, login flow and session guard.

A shallow embedding of `api.go`, `storage.go` and `types.go`.

* Time is an integer count of nanoseconds since the Unix epoch; a duration is an
  integer count of nanoseconds clamped to the int64 range, as `time.Duration` is.
* A handler is a function of the response writer, the request and the world.  The
  world carries the position in the sequence of clock readings and the log of the
  calls made to the collaborators (store, token signer, mail server).
* A handler returns `none` when the Go code panics (nil pointer dereference).
* The response writer records each `Set-Cookie` line as the cookie it spells:
  expiration in whole seconds, an invalid domain attribute left out.
* The third-party packages are modelled at their interface: the control flow of
  `jwt.Parser.ParseWithClaims`, `RegisteredClaims.Valid` and `NewNumericDate` of
  `github.com/golang-jwt/jwt/v4` is written out, their primitives (segment
  decoding, HMAC) are fields of `Codec`; `encoding/json`, `database/sql` and
  `net/smtp` are fields of `Env` and `SqlDB`.
-/

namespace MedicineTracker

/-! ## Errors -/

/-- Go `error` values that occur in the program.  `ErrSignatureInvalid`,
`ErrNoCookie` and `ErrNoRows` are the package sentinels `jwt.ErrSignatureInvalid`,
`http.ErrNoCookie` and `sql.ErrNoRows`; `ValidationError` is a `*jwt.ValidationError`
wrapping the error `Inner` with the bit set `Errors`; `errorString` is any other
value made by `errors.New` or `fmt.Errorf`. -/
inductive GoError where
  | ErrSignatureInvalid : GoError
  | ErrNoCookie : GoError
  | ErrNoRows : GoError
  | errorString (s : String) : GoError
  | ValidationError (Inner : GoError) (Errors : Nat) : GoError
deriving DecidableEq, Repr

/-- The method `Error()` of an error value. -/
def GoError.Error : GoError → String
  | .ErrSignatureInvalid => "signature is invalid"
  | .ErrNoCookie => "http: named cookie not present"
  | .ErrNoRows => "sql: no rows in result set"
  | .errorString s => s
  | .ValidationError i _ => i.Error

/-! ## Time -/

/-- One second, `time.Second`, in nanoseconds. -/
def Second : Int := 1000000000

/-- One hour, `time.Hour`, in nanoseconds. -/
def Hour : Int := 3600 * Second

/-- Smallest `time.Duration`. -/
def minDuration : Int := -9223372036854775808

/-- Largest `time.Duration`. -/
def maxDuration : Int := 9223372036854775807

/-- The method `Time.Sub`: the duration `t - u`, clamped to the int64 range. -/
def Sub (t u : Int) : Int :=
  if t - u < minDuration then minDuration
  else if maxDuration < t - u then maxDuration
  else t - u

/-- The method `Time.Truncate(time.Second)`: round down to a whole second. -/
def Truncate (t : Int) : Int := t - t % Second

/-- The function `jwt.NewNumericDate`: the time truncated to `jwt.TimePrecision`,
which is one second. -/
def NewNumericDate (t : Int) : Int := Truncate t

/-! ## Data model (`types.go`) -/

structure CreateNewAccountType where
  Name : String
  Email : String
deriving DecidableEq, Repr

structure AccountType where
  ID : String
  Name : String
  Email : String
deriving DecidableEq, Repr

structure LogInType where
  Email : String
deriving DecidableEq, Repr

/-- The time-valued fields of `jwt.RegisteredClaims`, the ones `Valid` checks.  Each
is a pointer in Go, `none` is the nil pointer.  The string fields (issuer, subject,
audience, id) are neither written nor read by this program. -/
structure RegisteredClaims where
  ExpiresAt : Option Int
  NotBefore : Option Int
  IssuedAt : Option Int
deriving DecidableEq, Repr

structure ClaimsType extends RegisteredClaims where
  User_ID : String
deriving DecidableEq, Repr

structure MedicineType where
  ID : String
  Name : String
  Dosage : Int
  Frequency : Int
  User_ID : String
  Created_at : Int
  Updated_at : Int
deriving DecidableEq, Repr

structure CreateNewMedicineType where
  Name : String
  Dosage : Int
  Frequency : Int
  User_ID : String
  Created_at : Int
  Updated_at : Int
deriving DecidableEq, Repr

structure UpdateMedicineType where
  ID : String
  Name : String
  Dosage : Int
  Frequency : Int
  Updated_at : Int
deriving DecidableEq, Repr

structure UpdateRequest where
  ID : String
  Name : String
  Dosage : Int
  Frequency : Int
deriving DecidableEq, Repr

structure MedicineRequest where
  Name : String
  Dosage : Int
  Frequency : Int
  User_ID : String
deriving DecidableEq, Repr

/-! ## Collaborators -/

/-- The primitives of the token package under the process-wide key `jwtKey` with
the method HS256.
* `Encode c` is the compact serialisation of the claims `c` followed by its
  signature: what `jwt.NewWithClaims(jwt.SigningMethodHS256, c).SignedString(jwtKey)`
  returns.  With a byte-slice key HS256 signing has no failing path.
* `ParseUnverified s` splits and decodes the segments of `s`; on failure it gives
  the inner error and the bit of the `*jwt.ValidationError` it returns.
* `Verify s` is `token.Method.Verify` of the first two segments of `s` against the
  third; `none` is success. -/
structure Codec where
  Encode : ClaimsType → String
  ParseUnverified : String → Except (GoError × Nat) ClaimsType
  Verify : String → Option GoError

/-- Result of `rows.Next`/`rows.Scan` over a result set, and of `rows.Err`. -/
structure Rows where
  scans : List (Except GoError MedicineType)
  Err : Option GoError

/-- An argument of a SQL statement. -/
inductive SqlArg where
  | str (s : String) : SqlArg
  | int (i : Int) : SqlArg
  | time (t : Int) : SqlArg
deriving DecidableEq, Repr

/-- The handle `*sql.DB`.  `QueryRowAccount q args` is
`db.QueryRow(q, args...).Scan(&ID, &Name, &Email)`. -/
structure SqlDB where
  QueryRowAccount : String → List SqlArg → Except GoError AccountType
  Query : String → List SqlArg → Except GoError Rows
  Exec : String → List SqlArg → Option GoError

/-- The interface `Storage`. -/
structure Storage where
  CreateMedicine : CreateNewMedicineType → Option GoError
  GetAllMedicine : String → Except GoError (List MedicineType)
  UpdateMedicine : UpdateMedicineType → Option GoError
  DeleteMedicine : String → Option GoError
  CreateAccount : CreateNewAccountType → Except GoError AccountType
  CheckEmail : String → Except GoError AccountType

/-- What the process reads from outside.  `clock k` is the `k`-th reading of
`time.Now()`; the four decoders are `json.NewDecoder(r.Body).Decode` at the four
request types; `SendMail to msg` is the result of `smtp.SendMail` (`none` is
success); `DurationString` is `time.Duration.String`. -/
structure Env where
  clock : Nat → Int
  jwt : Codec
  DecodeLogIn : String → Except GoError LogInType
  DecodeAccount : String → Except GoError CreateNewAccountType
  DecodeMedicine : String → Except GoError MedicineRequest
  DecodeUpdate : String → Except GoError UpdateRequest
  SendMail : List String → String → Option GoError
  DurationString : Int → String

/-- A call made to a collaborator. -/
inductive Effect where
  | CheckEmail (email : String) : Effect
  | CreateAccount (acc : CreateNewAccountType) : Effect
  | CreateMedicine (med : CreateNewMedicineType) : Effect
  | GetAllMedicine (ID : String) : Effect
  | UpdateMedicine (med : UpdateMedicineType) : Effect
  | DeleteMedicine (ID : String) : Effect
  | SignedString (claims : ClaimsType) : Effect
  | SendMail (rcpt : List String) (msg : String) : Effect
deriving DecidableEq, Repr

/-- The world: how many clock readings were taken and which calls were made. -/
structure World where
  tick : Nat
  trace : List Effect
deriving DecidableEq, Repr

/-- Record a call. -/
def World.log (σ : World) (e : Effect) : World :=
  { σ with trace := σ.trace ++ [e] }

/-- The function `time.Now`. -/
def Now (env : Env) (σ : World) : Int × World :=
  (env.clock σ.tick, { σ with tick := σ.tick + 1 })

/-- The function `time.Until`: `t.Sub(time.Now())`. -/
def Until (env : Env) (t : Int) (σ : World) : Int × World :=
  let (now, σ1) := Now env σ
  (Sub t now, σ1)

/-! ## HTTP -/

def StatusOK : Nat := 200
def StatusBadRequest : Nat := 400
def StatusUnauthorized : Nat := 401
def StatusInternalServerError : Nat := 500

/-- The fields of `http.Cookie` the program sets.  `Expires = none` is the zero
time. -/
structure Cookie where
  Name : String
  Value : String
  Path : String
  Domain : String
  Expires : Option Int
  MaxAge : Int
deriving DecidableEq, Repr

/-- A value handed to `WriteJSON`. -/
inductive Payload where
  | ApiError (Error : String) : Payload
  | status (status : String) : Payload
  | account (a : AccountType) : Payload
  | medicines (ms : List MedicineType) : Payload
  | newMedicine (m : CreateNewMedicineType) : Payload
  | updatedMedicine (m : UpdateMedicineType) : Payload
deriving DecidableEq, Repr

/-- A recording `http.ResponseWriter`: the header lines other than `Set-Cookie`,
the `Set-Cookie` lines (each kept as the cookie it spells, see `Cookie.line`), the
status of the first `WriteHeader`, and the documents written. -/
structure ResponseWriter where
  Header : List (String × String)
  cookies : List Cookie
  status : Option Nat
  body : List Payload
deriving DecidableEq, Repr

/-- A response writer nothing was written to. -/
def ResponseWriter.new : ResponseWriter :=
  { Header := [], cookies := [], status := none, body := [] }

/-- The parts of `http.Request` the program reads. -/
structure Request where
  cookies : List Cookie
  urlParams : List (String × String)
  Body : String
deriving DecidableEq, Repr

/-- The method `Request.Cookie`. -/
def Request.Cookie (r : Request) (name : String) : Except GoError Cookie :=
  match r.cookies.find? (fun c => c.Name == name) with
  | some c => .ok c
  | none => .error GoError.ErrNoCookie

/-- The function `chi.URLParam`: the value of the route parameter, or the empty
string. -/
def URLParam (r : Request) (key : String) : String :=
  match r.urlParams.find? (fun p => p.1 == key) with
  | some p => p.2
  | none => ""

/-- The loop of `isCookieDomainName` of `net/http` over the bytes of the name,
carrying the previous byte, whether a letter was seen, and the length of the
current label; `none` when the loop returns false. -/
def domainNameLoop : List Char → Char → Bool → Nat → Option (Char × Bool × Nat)
  | [], last, ok, partlen => some (last, ok, partlen)
  | c :: rest, last, ok, partlen =>
    if ('a' ≤ c ∧ c ≤ 'z') ∨ ('A' ≤ c ∧ c ≤ 'Z') then domainNameLoop rest c true (partlen + 1)
    else if '0' ≤ c ∧ c ≤ '9' then domainNameLoop rest c ok (partlen + 1)
    else if c = '-' then
      if last = '.' then none else domainNameLoop rest c ok (partlen + 1)
    else if c = '.' then
      if last = '.' ∨ last = '-' then none
      else if partlen > 63 ∨ partlen = 0 then none
      else domainNameLoop rest c ok 0
    else none

/-- The function `isCookieDomainName` of `net/http`: a domain name, possibly with a
leading dot. -/
def isCookieDomainName (s : String) : Bool :=
  if s.utf8ByteSize = 0 then false
  else if s.utf8ByteSize > 255 then false
  else
    let cs := match s.toList with
      | '.' :: rest => rest
      | l => l
    match domainNameLoop cs '.' false 0 with
    | none => false
    | some (last, ok, partlen) => if last = '-' ∨ partlen > 63 then false else ok

/-- The value of a run of decimal digits, `none` when a byte is not a digit. -/
def digitsValue : List Char → Nat → Option Nat
  | [], n => some n
  | c :: rest, n =>
    if '0' ≤ c ∧ c ≤ '9' then digitsValue rest (10 * n + (c.toNat - 48)) else none

/-- One field of a dotted-decimal address: digits, at most 255, no leading zero
before another digit. -/
def ipv4Field (cs : List Char) : Bool :=
  match cs with
  | [] => false
  | c :: rest =>
    match digitsValue cs 0 with
    | none => false
    | some n => decide (n ≤ 255) && (rest.isEmpty || c != '0')

/-- Split at the dots. -/
def splitDots : List Char → List Char → List (List Char)
  | [], field => [field]
  | c :: rest, field =>
    if c = '.' then field :: splitDots rest [] else splitDots rest (field ++ [c])

/-- The function `net.ParseIP` on a string without a colon succeeds: four
dotted-decimal fields. -/
def isIPv4 (s : String) : Bool :=
  let fields := splitDots s.toList []
  fields.length == 4 && fields.all ipv4Field

/-- The function `validCookieDomain` of `net/http`. -/
def validCookieDomain (v : String) : Bool :=
  isCookieDomainName v || (isIPv4 v && !(v.toList.contains ':'))

/-- The cookie as the line `Set-Cookie` written by `Cookie.String` spells it: the
expiration in whole seconds (`http.TimeFormat`), the domain attribute without its
leading dot and left out when `validCookieDomain` fails.  `MaxAge` is kept as
given (positive is written as such, negative as `Max-Age=0`, zero not at all).
Name, value and path are written as given: the name `token` is a valid cookie
name, and a token string that decodes consists of base64url characters and dots,
which `sanitizeCookieValue` keeps.  Not modelled: `net/http` leaves the expiration
out for years before 1601, which no reading of the system clock gives. -/
def Cookie.line (c : Cookie) : Cookie :=
  { c with
    Domain :=
      if validCookieDomain c.Domain then
        match c.Domain.toList with
        | '.' :: rest => String.mk rest
        | _ => c.Domain
      else ""
    Expires := c.Expires.map Truncate }

/-- The function `http.SetCookie`: add the line `Set-Cookie` of the cookie. -/
def SetCookie (w : ResponseWriter) (c : Cookie) : ResponseWriter :=
  { w with cookies := w.cookies ++ [c.line] }

/-- The method `WriteHeader`: only the first call sets the status. -/
def WriteHeader (w : ResponseWriter) (status : Nat) : ResponseWriter :=
  match w.status with
  | some _ => w
  | none => { w with status := some status }

/-- The function `WriteJSON` of `api.go`. -/
def WriteJSON (w : ResponseWriter) (status : Nat) (v : Payload) :
    Option GoError × ResponseWriter :=
  let w1 := { w with Header := w.Header ++ [("Content-Type", "application/json")] }
  let w2 := WriteHeader w1 status
  (none, { w2 with body := w2.body ++ [v] })

/-- The type `apiFunc`: a handler that may return an error. -/
abbrev apiFunc := ResponseWriter → Request → World → Option (Option GoError × ResponseWriter × World)

/-- The type `http.HandlerFunc`. -/
abbrev HandlerFunc := ResponseWriter → Request → World → Option (ResponseWriter × World)

/-- The function `makeHTTPHandleFunc` of `api.go`. -/
def makeHTTPHandleFunc (f : apiFunc) : HandlerFunc := fun w r σ =>
  match f w r σ with
  | none => none
  | some (none, w1, σ1) => some (w1, σ1)
  | some (some err, w1, σ1) =>
    some ((WriteJSON w1 StatusBadRequest (Payload.ApiError err.Error)).2, σ1)

/-! ## Token package -/

def ValidationErrorMalformed : Nat := 1
def ValidationErrorSignatureInvalid : Nat := 4
def ValidationErrorExpired : Nat := 16
def ValidationErrorIssuedAt : Nat := 32
def ValidationErrorNotValidYet : Nat := 128

/-- The fields of `jwt.Token` the program reads. -/
structure Token where
  Claims : ClaimsType
  Valid : Bool
deriving DecidableEq, Repr

/-- The zero value of `ClaimsType`, what `new(ClaimsType)` points to. -/
def ClaimsType.zero : ClaimsType :=
  { User_ID := "", ExpiresAt := none, NotBefore := none, IssuedAt := none }

/-- The function `verifyExp`: an absent claim passes, a present one passes when
`now.Before(exp)`. -/
def verifyExp (exp : Option Int) (now : Int) : Bool :=
  match exp with
  | none => true
  | some e => decide (now < e)

/-- The functions `verifyIat` and `verifyNbf`: an absent claim passes, a present
one passes when `now` is not before it. -/
def verifyNotBefore (t : Option Int) (now : Int) : Bool :=
  match t with
  | none => true
  | some t0 => decide (t0 ≤ now)

/-- The method `RegisteredClaims.Valid` at the time `now`: the three checks in
order, each overwriting `Inner` and adding its bit. -/
def RegisteredClaims.Valid (env : Env) (c : RegisteredClaims) (now : Int) : Option GoError :=
  let v0 : Option (GoError × Nat) := none
  let v1 : Option (GoError × Nat) :=
    if verifyExp c.ExpiresAt now then v0
    else some (GoError.errorString ("token is expired by " ++
      env.DurationString (Sub now (c.ExpiresAt.getD 0))), ValidationErrorExpired)
  let v2 : Option (GoError × Nat) :=
    if verifyNotBefore c.IssuedAt now then v1
    else some (GoError.errorString "token used before issued",
      (v1.elim 0 Prod.snd) + ValidationErrorIssuedAt)
  let v3 : Option (GoError × Nat) :=
    if verifyNotBefore c.NotBefore now then v2
    else some (GoError.errorString "token is not valid yet",
      (v2.elim 0 Prod.snd) + ValidationErrorNotValidYet)
  match v3 with
  | none => none
  | some (inner, errors) => some (GoError.ValidationError inner errors)

/-- The method `Parser.ParseWithClaims` with the key function of `api.go`, which
always returns `jwtKey`: decode the segments, check the signature, then validate
the registered claims against one reading of the clock.  The error, when there is
one, is a `*jwt.ValidationError` whose `Inner` is the cause; the token is `Valid`
exactly when there is none. -/
def ParseWithClaims (env : Env) (tokenString : String) (σ : World) :
    (Token × Option GoError) × World :=
  match env.jwt.ParseUnverified tokenString with
  | .error (inner, errors) =>
    (({ Claims := ClaimsType.zero, Valid := false },
      some (GoError.ValidationError inner errors)), σ)
  | .ok claims =>
    match env.jwt.Verify tokenString with
    | some err =>
      (({ Claims := claims, Valid := false },
        some (GoError.ValidationError err ValidationErrorSignatureInvalid)), σ)
    | none =>
      let (now, σ1) := Now env σ
      match RegisteredClaims.Valid env claims.toRegisteredClaims now with
      | some vErr => (({ Claims := claims, Valid := false }, some vErr), σ1)
      | none => (({ Claims := claims, Valid := true }, none), σ1)

/-- The method `Token.SignedString(jwtKey)` of an HS256 token. -/
def SignedString (env : Env) (claims : ClaimsType) (σ : World) :
    Except GoError String × World :=
  (.ok (env.jwt.Encode claims), σ.log (Effect.SignedString claims))

/-! ## Store (`storage.go`) -/

/-- The method `PostgresStore.CreateAccount`. -/
def PostgresStore.CreateAccount (db : SqlDB) (acc : CreateNewAccountType) :
    Except GoError AccountType :=
  match db.QueryRowAccount "insert into users (name, email) values ($1, $2) returning *;"
      [SqlArg.str acc.Name, SqlArg.str acc.Email] with
  | .error err =>
    if err = GoError.ErrNoRows then .error err
    else .error err
  | .ok newAccount => .ok newAccount

/-- The method `PostgresStore.CheckEmail`. -/
def PostgresStore.CheckEmail (db : SqlDB) (email : String) : Except GoError AccountType :=
  match db.QueryRowAccount "select * from users where email = $1;" [SqlArg.str email] with
  | .error err =>
    if err = GoError.ErrNoRows then
      .error (GoError.errorString ("account " ++ email ++ " not found"))
    else .error err
  | .ok account => .ok account

/-- The method `PostgresStore.CreateMedicine`. -/
def PostgresStore.CreateMedicine (db : SqlDB) (med : CreateNewMedicineType) : Option GoError :=
  match db.Exec
      "insert into medicine(name, dosage, frequency, user_id, created_at, updated_at) values ($1, $2, $3, $4, $5, $6);"
      [SqlArg.str med.Name, SqlArg.int med.Dosage, SqlArg.int med.Frequency,
       SqlArg.str med.User_ID, SqlArg.time med.Created_at, SqlArg.time med.Updated_at] with
  | some err => some err
  | none => none

/-- The loop `for rows.Next()` of `GetAllMedicine`: scan every row and append it,
stop at the first scan error. -/
def scanRows : List (Except GoError MedicineType) → List MedicineType →
    Except GoError (List MedicineType)
  | [], medicines => .ok medicines
  | .error err :: _, _ => .error err
  | .ok m :: rest, medicines => scanRows rest (medicines ++ [m])

/-- The method `PostgresStore.GetAllMedicine`. -/
def PostgresStore.GetAllMedicine (db : SqlDB) (ID : String) :
    Except GoError (List MedicineType) :=
  match db.Query "select * from medicine where user_id = $1;" [SqlArg.str ID] with
  | .error err => .error err
  | .ok rows =>
    match scanRows rows.scans [] with
    | .error err => .error err
    | .ok medicines =>
      match rows.Err with
      | some err => .error err
      | none => .ok medicines

/-- The method `PostgresStore.UpdateMedicine`. -/
def PostgresStore.UpdateMedicine (db : SqlDB) (med : UpdateMedicineType) : Option GoError :=
  db.Exec "update medicine set name = $1, dosage = $2, frequency = $3, updated_at = $4 where id = $5;"
    [SqlArg.str med.Name, SqlArg.int med.Dosage, SqlArg.int med.Frequency,
     SqlArg.time med.Updated_at, SqlArg.str med.ID]

/-- The method `PostgresStore.DeleteMedicine`. -/
def PostgresStore.DeleteMedicine (db : SqlDB) (ID : String) : Option GoError :=
  db.Exec "delete from medicine where id = $1;" [SqlArg.str ID]

/-- The type `PostgresStore` as an implementation of `Storage`. -/
def PostgresStore (db : SqlDB) : Storage :=
  { CreateMedicine := PostgresStore.CreateMedicine db
    GetAllMedicine := PostgresStore.GetAllMedicine db
    UpdateMedicine := PostgresStore.UpdateMedicine db
    DeleteMedicine := PostgresStore.DeleteMedicine db
    CreateAccount := PostgresStore.CreateAccount db
    CheckEmail := PostgresStore.CheckEmail db }

/-! ## Constructors of `types.go` -/

/-- The function `UpdateOldMedicine`. -/
def UpdateOldMedicine (env : Env) (ID name : String) (dosage frequency : Int) (σ : World) :
    UpdateMedicineType × World :=
  let (now, σ1) := Now env σ
  ({ ID := ID, Name := name, Dosage := dosage, Frequency := frequency, Updated_at := now }, σ1)

/-- The function `NewMedicine`. -/
def NewMedicine (env : Env) (name : String) (dosage frequency : Int) (user_id : String)
    (σ : World) : CreateNewMedicineType × World :=
  let (created, σ1) := Now env σ
  let (updated, σ2) := Now env σ1
  ({ Name := name, Dosage := dosage, Frequency := frequency, User_ID := user_id,
     Created_at := created, Updated_at := updated }, σ2)

/-! ## Server (`api.go`) -/

structure APIServer where
  listenAddr : String
  store : Storage

/-- The function `CreateJWT`. -/
def CreateJWT (env : Env) (user_id : String) (σ : World) : Except GoError String × World :=
  let (now, σ1) := Now env σ
  let expirationTime := now + Hour * 24
  let claims : ClaimsType :=
    { User_ID := user_id, ExpiresAt := some (NewNumericDate expirationTime),
      NotBefore := none, IssuedAt := none }
  match SignedString env claims σ1 with
  | (.error err, σ2) => (.error err, σ2)
  | (.ok tokenString, σ2) => (.ok tokenString, σ2)

/-- The function `sendEmailLogin`. -/
def sendEmailLogin (env : Env) (email token : String) (σ : World) : Option GoError × World :=
  let rcpt := [email]
  let msg := "To: " ++ email ++ "\r\n" ++ "Subject: Login Link\r\n" ++ "\r\n" ++
    "http://127.0.0.1:8080/login/" ++ token
  let σ1 := σ.log (Effect.SendMail rcpt msg)
  match env.SendMail rcpt msg with
  | some err => (some err, σ1)
  | none => (none, σ1)

/-- The handler `handleLogIn`. -/
def handleLogIn (env : Env) (s : APIServer) : apiFunc := fun w r σ =>
  match env.DecodeLogIn r.Body with
  | .error _ => some (none, w, σ)
  | .ok email =>
    let σ1 := σ.log (Effect.CheckEmail email.Email)
    match s.store.CheckEmail email.Email with
    | .error err => some (some err, w, σ1)
    | .ok account =>
      match CreateJWT env account.ID σ1 with
      | (.error err, σ2) => some (some err, w, σ2)
      | (.ok tokenStr, σ2) =>
        match sendEmailLogin env account.Email tokenStr σ2 with
        | (some err, σ3) => some (some err, w, σ3)
        | (none, σ3) =>
          let (e, w1) := WriteJSON w StatusOK (Payload.account account)
          some (e, w1, σ3)

/-- The handler `handleVerifyLogin`. -/
def handleVerifyLogin (env : Env) (_s : APIServer) : apiFunc := fun w r σ =>
  let tokenStr := URLParam r "token"
  match ParseWithClaims env tokenStr σ with
  | ((_, some err), σ1) =>
    if err = GoError.ErrSignatureInvalid then
      let (e, w1) := WriteJSON w StatusUnauthorized (Payload.ApiError "Signature Invalid")
      some (e, w1, σ1)
    else
      let (e, w1) := WriteJSON w StatusBadRequest (Payload.ApiError err.Error)
      some (e, w1, σ1)
  | ((token, none), σ1) =>
    if !token.Valid then
      let (e, w1) := WriteJSON w StatusUnauthorized (Payload.ApiError "token invalid")
      some (e, w1, σ1)
    else
      match token.Claims.ExpiresAt with
      | none => none
      | some expiresAt =>
        let w1 := SetCookie w
          { Name := "token", Value := tokenStr, Expires := some expiresAt,
            Domain := "http://localhost:8080", Path := "/", MaxAge := 0 }
        let (e, w2) := WriteJSON w1 StatusOK (Payload.status "ok")
        some (e, w2, σ1)

/-- The handler `handleLogout`. -/
def handleLogout (env : Env) (_s : APIServer) : apiFunc := fun w _r σ =>
  let (now, σ1) := Now env σ
  let w1 := SetCookie w
    { Name := "token", Value := "", Expires := some now, Domain := "", Path := "", MaxAge := -1 }
  let (e, w2) := WriteJSON w1 StatusOK (Payload.status "Logout Success")
  some (e, w2, σ1)

/-- The handler `handleCreateAccount`. -/
def handleCreateAccount (env : Env) (s : APIServer) : apiFunc := fun w r σ =>
  match env.DecodeAccount r.Body with
  | .error err => some (some err, w, σ)
  | .ok newAccount =>
    let σ1 := σ.log (Effect.CreateAccount newAccount)
    match s.store.CreateAccount newAccount with
    | .error err => some (some err, w, σ1)
    | .ok res =>
      match CreateJWT env res.ID σ1 with
      | (.error err, σ2) => some (some err, w, σ2)
      | (.ok tokenStr, σ2) =>
        match sendEmailLogin env res.Email tokenStr σ2 with
        | (some err, σ3) => some (some err, w, σ3)
        | (none, σ3) =>
          let (e, w1) := WriteJSON w StatusOK (Payload.account res)
          some (e, w1, σ3)

/-- The handler `handleCreateMedicine`. -/
def handleCreateMedicine (env : Env) (s : APIServer) : apiFunc := fun w r σ =>
  match env.DecodeMedicine r.Body with
  | .error err => some (some err, w, σ)
  | .ok medicineData =>
    let (medicine, σ1) := NewMedicine env medicineData.Name medicineData.Dosage
      medicineData.Frequency medicineData.User_ID σ
    let σ2 := σ1.log (Effect.CreateMedicine medicine)
    match s.store.CreateMedicine medicine with
    | some err => some (some err, w, σ2)
    | none =>
      let (e, w1) := WriteJSON w StatusOK (Payload.newMedicine medicine)
      some (e, w1, σ2)

/-- The handler `handleGetAllMedicine`. -/
def handleGetAllMedicine (s : APIServer) : apiFunc := fun w r σ =>
  let idParam := URLParam r "userId"
  let σ1 := σ.log (Effect.GetAllMedicine idParam)
  match s.store.GetAllMedicine idParam with
  | .error err => some (some err, w, σ1)
  | .ok medicines =>
    let (e, w1) := WriteJSON w StatusOK (Payload.medicines medicines)
    some (e, w1, σ1)

/-- The handler `handleUpdateMedicine`. -/
def handleUpdateMedicine (env : Env) (s : APIServer) : apiFunc := fun w r σ =>
  match env.DecodeUpdate r.Body with
  | .error _ => some (none, w, σ)
  | .ok updateMedicine =>
    let (updateMed, σ1) := UpdateOldMedicine env updateMedicine.ID updateMedicine.Name
      updateMedicine.Dosage updateMedicine.Frequency σ
    let σ2 := σ1.log (Effect.UpdateMedicine updateMed)
    match s.store.UpdateMedicine updateMed with
    | some err => some (some err, w, σ2)
    | none =>
      let (e, w1) := WriteJSON w StatusOK (Payload.updatedMedicine updateMed)
      some (e, w1, σ2)

/-- The handler `handleDeleteMedicine`. -/
def handleDeleteMedicine (s : APIServer) : apiFunc := fun w r σ =>
  let idParam := URLParam r "id"
  let σ1 := σ.log (Effect.DeleteMedicine idParam)
  match s.store.DeleteMedicine idParam with
  | some err => some (some err, w, σ1)
  | none => some (none, w, σ1)

/-- How the body of the middleware ends: it wrote a response and returned, or it
reached `next.ServeHTTP(w, r)` with this writer and world. -/
inductive Step where
  | respond (w : ResponseWriter) (σ : World) : Step
  | forward (w : ResponseWriter) (σ : World) : Step
deriving DecidableEq, Repr

/-- The body of the middleware `WithJWTAuth` up to the call of `next`.  The two
readings of `time.Until` are taken in order, the second only when the first
comparison holds. -/
def WithJWTAuthStep (env : Env) (w : ResponseWriter) (r : Request) (σ : World) : Option Step :=
  match r.Cookie "token" with
  | .error err =>
    if err = GoError.ErrNoCookie then
      some (Step.respond (WriteJSON w StatusUnauthorized (Payload.ApiError "No Cookie")).2 σ)
    else
      some (Step.respond (WriteJSON w StatusBadRequest (Payload.ApiError err.Error)).2 σ)
  | .ok c =>
    let tokenString := c.Value
    match ParseWithClaims env tokenString σ with
    | ((_, some err), σ1) =>
      if err = GoError.ErrSignatureInvalid then
        some (Step.respond
          (WriteJSON w StatusUnauthorized (Payload.ApiError "Signature Invalid")).2 σ1)
      else
        some (Step.respond (WriteJSON w StatusBadRequest (Payload.ApiError err.Error)).2 σ1)
    | ((token, none), σ1) =>
      if !token.Valid then
        some (Step.respond (WriteJSON w StatusUnauthorized (Payload.ApiError "token invalid")).2 σ1)
      else
        let claims := token.Claims
        match claims.ExpiresAt with
        | none => none
        | some expiresAt =>
          let (d1, σ2) := Until env expiresAt σ1
          if d1 ≤ 30 * Second then
            let (d2, σ3) := Until env expiresAt σ2
            if d2 > 0 * Second then
              let (now, σ4) := Now env σ3
              let expirationTime := now + 24 * Hour
              let claims1 : ClaimsType :=
                { claims with ExpiresAt := some (NewNumericDate expirationTime) }
              match SignedString env claims1 σ4 with
              | (.error err, σ5) =>
                some (Step.respond
                  (WriteJSON w StatusInternalServerError (Payload.ApiError err.Error)).2 σ5)
              | (.ok newTokenString, σ5) =>
                let w1 := SetCookie w
                  { Name := "token", Value := newTokenString, Expires := some expirationTime,
                    Domain := "", Path := "", MaxAge := 0 }
                some (Step.forward w1 σ5)
            else some (Step.forward w σ3)
          else some (Step.forward w σ2)

/-- The middleware `WithJWTAuth`. -/
def WithJWTAuth (env : Env) (next : HandlerFunc) : HandlerFunc := fun w r σ =>
  match WithJWTAuthStep env w r σ with
  | none => none
  | some (Step.respond w1 σ1) => some (w1, σ1)
  | some (Step.forward w1 σ1) => next w1 r σ1

/-! ## Properties stated over the handlers -/

/-- The token string verifies in the world `σ`: `ParseWithClaims` returns a nil
error. -/
def Verifies (env : Env) (tokenString : String) (σ : World) : Bool :=
  (ParseWithClaims env tokenString σ).1.2.isNone

/-- The middleware reaches the call of the route handler. -/
def Forwards (env : Env) (w : ResponseWriter) (r : Request) (σ : World) : Bool :=
  match WithJWTAuthStep env w r σ with
  | some (Step.forward _ _) => true
  | _ => false

/-- The claim set `CreateJWT` signs for `user_id` when the clock reads `now`. -/
def mintedClaims (user_id : String) (now : Int) : ClaimsType :=
  { User_ID := user_id, ExpiresAt := some (NewNumericDate (now + Hour * 24)),
    NotBefore := none, IssuedAt := none }

/-- The message `sendEmailLogin` composes. -/
def loginMessage (email token : String) : String :=
  "To: " ++ email ++ "\r\n" ++ "Subject: Login Link\r\n" ++ "\r\n" ++
    "http://127.0.0.1:8080/login/" ++ token

/-- The cookie the middleware sets on renewal. -/
def renewalCookie (newTokenString : String) (expirationTime : Int) : Cookie :=
  { Name := "token", Value := newTokenString, Expires := some expirationTime,
    Domain := "", Path := "", MaxAge := 0 }

/-! ## A concrete environment -/

/-- A codec given by a finite table of token strings: the claim set each decodes
to and whether its signature verifies. -/
def tableCodec (table : List (String × ClaimsType × Bool)) : Codec :=
  { Encode := fun c =>
      match table.find? (fun p => p.2.1 == c && p.2.2) with
      | some p => p.1
      | none => ""
    ParseUnverified := fun s =>
      match table.find? (fun p => p.1 == s) with
      | some p => .ok p.2.1
      | none => .error (GoError.errorString "token contains an invalid number of segments",
          ValidationErrorMalformed)
    Verify := fun s =>
      match table.find? (fun p => p.1 == s) with
      | some p => if p.2.2 then none else some GoError.ErrSignatureInvalid
      | none => some GoError.ErrSignatureInvalid }

/-- Claims of user `u` expiring at second `sec`. -/
def claimsAt (u : String) (sec : Int) : ClaimsType :=
  { User_ID := u, ExpiresAt := some (sec * Second), NotBefore := none, IssuedAt := none }

/-- Eight token strings. -/
def demoTable : List (String × ClaimsType × Bool) :=
  [("tok.u1", claimsAt "u1" 1030, true),
   ("tok.u2", claimsAt "u2" 1030, true),
   ("tok.u1.r30", claimsAt "u1" 87400, true),
   ("tok.u1.r25", claimsAt "u1" 87405, true),
   ("tok.forged", claimsAt "u1" 1030, false),
   ("tok.noexp",
     { User_ID := "u1", ExpiresAt := none, NotBefore := none, IssuedAt := none }, true),
   ("tok.u9", claimsAt "u9" 86400, true),
   ("tok.nbf",
     { User_ID := "u1", ExpiresAt := some (1030 * Second), NotBefore := some (5000 * Second),
       IssuedAt := none }, true)]

/-- An environment over `demoTable` with the given clock.  The only body that
decodes is the login request of `nobody@x.com`. -/
def demoEnv (clock : Nat → Int) : Env :=
  { clock := clock
    jwt := tableCodec demoTable
    DecodeLogIn := fun b =>
      if b = "\x7b\"email\":\"nobody@x.com\"\x7d" then .ok { Email := "nobody@x.com" }
      else .error (GoError.errorString "unexpected end of JSON input")
    DecodeAccount := fun _ => .error (GoError.errorString "EOF")
    DecodeMedicine := fun _ => .error (GoError.errorString "EOF")
    DecodeUpdate := fun _ => .error (GoError.errorString "EOF")
    SendMail := fun _ _ => none
    DurationString := fun d =>
      if d = 200000000 then "200ms" else if d = 970 * Second then "16m10s" else "0s" }

/-- A database with no accounts, one medicine of user `u7`, and a failing `Exec`. -/
def demoDB : SqlDB :=
  { QueryRowAccount := fun _ _ => .error GoError.ErrNoRows
    Query := fun _ args =>
      if args = [SqlArg.str "u7"] then
        .ok { scans := [.ok { ID := "m1", Name := "aspirin", Dosage := 100, Frequency := 2,
                              User_ID := "u7", Created_at := 0, Updated_at := 0 }],
              Err := none }
      else .error (GoError.errorString "pq: invalid input syntax for type uuid")
    Exec := fun _ _ => some (GoError.errorString "pq: connection refused") }

/-- The server over `demoDB`. -/
def demoServer : APIServer := { listenAddr := ":8080", store := PostgresStore demoDB }

/-- The world before anything happened. -/
def World.start : World := { tick := 0, trace := [] }

/-- A request carrying the cookie `token` with the given value and the route
parameters `userId` and `token`. -/
def demoRequest (cookieValue userId tokenParam body : String) : Request :=
  { cookies := [{ Name := "token", Value := cookieValue, Path := "", Domain := "",
                  Expires := none, MaxAge := 0 }]
    urlParams := [("userId", userId), ("token", tokenParam)]
    Body := body }

/-- A clock that reads half a second at the first reading and 24 hours and 0.2
seconds afterwards. -/
def lateClock (k : Nat) : Int := if k = 0 then 500000000 else 86400200000000

/-- A request without cookies. -/
def bareRequest (body : String) : Request :=
  { cookies := [], urlParams := [], Body := body }



/-! ## Lemmas -/

theorem Sub_le_thirty (t u : Int) : Sub t u ≤ 30 * Second ↔ t - u ≤ 30 * Second := by
  unfold Sub minDuration maxDuration Second
  split_ifs <;> omega

theorem Sub_pos (t u : Int) : Sub t u > 0 * Second ↔ 0 < t - u := by
  unfold Sub minDuration maxDuration Second
  split_ifs <;> omega

theorem Truncate_bounds (t : Int) :
    t - Second < Truncate t ∧ Truncate t ≤ t ∧ Truncate t % Second = 0 := by
  unfold Truncate Second
  omega

theorem Truncate_NewNumericDate (t : Int) : Truncate (NewNumericDate t) = NewNumericDate t := by
  unfold NewNumericDate Truncate Second
  omega

theorem SetCookie_cookies (w : ResponseWriter) (name value path : String) (t : Int)
    (maxAge : Int) :
    (SetCookie w { Name := name, Value := value, Expires := some t, Domain := "", Path := path,
                   MaxAge := maxAge }).cookies =
      w.cookies ++ [{ Name := name, Value := value, Expires := some (Truncate t), Domain := "",
                      Path := path, MaxAge := maxAge }] := by
  have h : validCookieDomain "" = false := by decide
  simp [SetCookie, Cookie.line, h]

theorem Valid_eq_none_iff (env : Env) (c : RegisteredClaims) (now : Int) :
    RegisteredClaims.Valid env c now = none ↔
      (verifyExp c.ExpiresAt now = true ∧ verifyNotBefore c.IssuedAt now = true ∧
        verifyNotBefore c.NotBefore now = true) := by
  unfold RegisteredClaims.Valid
  cases h1 : verifyExp c.ExpiresAt now <;> cases h2 : verifyNotBefore c.IssuedAt now <;>
    cases h3 : verifyNotBefore c.NotBefore now <;> simp

theorem Valid_ne_sentinel (env : Env) (c : RegisteredClaims) (now : Int) :
    RegisteredClaims.Valid env c now ≠ some GoError.ErrSignatureInvalid := by
  unfold RegisteredClaims.Valid
  cases h1 : verifyExp c.ExpiresAt now <;> cases h2 : verifyNotBefore c.IssuedAt now <;>
    cases h3 : verifyNotBefore c.NotBefore now <;> simp

theorem ParseWithClaims_err_ne_sentinel (env : Env) (s : String) (σ : World) :
    (ParseWithClaims env s σ).1.2 ≠ some GoError.ErrSignatureInvalid := by
  unfold ParseWithClaims
  cases hp : env.jwt.ParseUnverified s with
  | error e => simp
  | ok claims =>
    cases hv : env.jwt.Verify s with
    | some err => simp
    | none =>
      simp only [Now]
      cases hval : RegisteredClaims.Valid env claims.toRegisteredClaims (env.clock σ.tick) with
      | none => simp
      | some vErr =>
        have := Valid_ne_sentinel env claims.toRegisteredClaims (env.clock σ.tick)
        rw [hval] at this
        simpa using this

theorem ParseWithClaims_ok (env : Env) (s : String) (σ : World) (token : Token)
    (h : (ParseWithClaims env s σ).1 = (token, none)) :
    ∃ claims, env.jwt.ParseUnverified s = .ok claims ∧ env.jwt.Verify s = none ∧
      RegisteredClaims.Valid env claims.toRegisteredClaims (env.clock σ.tick) = none ∧
      token = { Claims := claims, Valid := true } ∧
      ParseWithClaims env s σ =
        (({ Claims := claims, Valid := true }, none), { σ with tick := σ.tick + 1 }) := by
  unfold ParseWithClaims at h ⊢
  cases hp : env.jwt.ParseUnverified s with
  | error e => rw [hp] at h; simp at h
  | ok claims =>
    rw [hp] at h
    cases hv : env.jwt.Verify s with
    | some err => rw [hv] at h; simp at h
    | none =>
      rw [hv] at h
      simp only [Now] at h ⊢
      cases hval : RegisteredClaims.Valid env claims.toRegisteredClaims (env.clock σ.tick) with
      | some vErr => rw [hval] at h; simp at h
      | none =>
        rw [hval] at h
        simp at h
        exact ⟨claims, rfl, trivial, hval, h.symm, by simp⟩


theorem WithJWTAuthStep_verified (env : Env) (w : ResponseWriter) (r : Request) (σ : World)
    (c : Cookie) (claims : ClaimsType) (e : Int)
    (hcookie : r.Cookie "token" = .ok c)
    (hparse : ParseWithClaims env c.Value σ =
      (({ Claims := claims, Valid := true }, none), { σ with tick := σ.tick + 1 }))
    (hexp : claims.ExpiresAt = some e) :
    WithJWTAuthStep env w r σ =
      if Sub e (env.clock (σ.tick + 1)) ≤ 30 * Second then
        if Sub e (env.clock (σ.tick + 2)) > 0 * Second then
          some (Step.forward
            (SetCookie w (renewalCookie
              (env.jwt.Encode { claims with
                ExpiresAt := some (NewNumericDate (env.clock (σ.tick + 3) + 24 * Hour)) })
              (env.clock (σ.tick + 3) + 24 * Hour)))
            { tick := σ.tick + 4,
              trace := σ.trace ++ [Effect.SignedString { claims with
                ExpiresAt := some (NewNumericDate (env.clock (σ.tick + 3) + 24 * Hour)) }] })
        else some (Step.forward w { tick := σ.tick + 3, trace := σ.trace })
      else some (Step.forward w { tick := σ.tick + 2, trace := σ.trace }) := by
  unfold WithJWTAuthStep
  rw [hcookie]
  simp only [hparse, hexp, Until, Now, SignedString, World.log, renewalCookie, Bool.not_true,
    Bool.false_eq_true, if_false]

/-! ## Session guard: sliding renewal -/

/-- C1. On a frozen clock reading `now`, for a request whose cookie `token`
verifies and whose claims expire at `e`, the middleware reaches the route handler,
and it has added a cookie named `token` exactly when `0 < e - now ≤ 30s`; outside
that window (45 seconds remaining, or any time above 30 seconds) the cookies are
unchanged. -/
theorem C1_renewal_iff_window (env : Env) (w : ResponseWriter) (r : Request) (σ : World)
    (c : Cookie) (token : Token) (e now : Int)
    (hclock : ∀ k, env.clock k = now)
    (hcookie : r.Cookie "token" = .ok c)
    (hverif : (ParseWithClaims env c.Value σ).1 = (token, none))
    (hexp : token.Claims.ExpiresAt = some e) :
    ∃ w1 σ1, WithJWTAuthStep env w r σ = some (Step.forward w1 σ1) ∧
      ((∃ ck, ck.Name = "token" ∧ w1.cookies = w.cookies ++ [ck]) ↔
        (0 < e - now ∧ e - now ≤ 30 * Second)) ∧
      (w1.cookies = w.cookies ↔ ¬ (0 < e - now ∧ e - now ≤ 30 * Second)) := by
  obtain ⟨claims, _, _, hval, htok, hparse⟩ := ParseWithClaims_ok env c.Value σ token hverif
  subst htok
  have hlt : now < e := by
    have h := (Valid_eq_none_iff env claims.toRegisteredClaims (env.clock σ.tick)).1 hval
    have h1 := h.1
    simp only [] at hexp
    rw [hexp, hclock] at h1
    simpa [verifyExp] using h1
  rw [WithJWTAuthStep_verified env w r σ c claims e hcookie hparse hexp]
  simp only [hclock, Sub_le_thirty, Sub_pos]
  by_cases hwin : e - now ≤ 30 * Second
  · have hpos : 0 < e - now := by omega
    rw [if_pos hwin, if_pos hpos]
    refine ⟨_, _, rfl, ?_, ?_⟩
    · simp [SetCookie, Cookie.line, renewalCookie, hwin, hpos]
    · simp [SetCookie, hwin, hpos]
  · rw [if_neg hwin]
    refine ⟨_, _, rfl, ?_, ?_⟩
    · simp [hwin]
    · simp [hwin]

/-- C1 at exactly 30 seconds remaining (expiry at second 1030, clock at second
1000), where a cookie is set, and at 45 seconds remaining (clock at second 985),
where none is. -/
theorem C1_renewal_iff_window_witness :
    (∃ w1 σ1, WithJWTAuthStep (demoEnv (fun _ => 1000 * Second)) ResponseWriter.new
        (demoRequest "tok.u1" "u7" "" "") World.start = some (Step.forward w1 σ1) ∧
      ((∃ ck, ck.Name = "token" ∧ w1.cookies = ResponseWriter.new.cookies ++ [ck]) ↔
        (0 < 1030 * Second - 1000 * Second ∧ 1030 * Second - 1000 * Second ≤ 30 * Second)) ∧
      (w1.cookies = ResponseWriter.new.cookies ↔
        ¬ (0 < 1030 * Second - 1000 * Second ∧
          1030 * Second - 1000 * Second ≤ 30 * Second))) ∧
    (∃ w1 σ1, WithJWTAuthStep (demoEnv (fun _ => 985 * Second)) ResponseWriter.new
        (demoRequest "tok.u1" "u7" "" "") World.start = some (Step.forward w1 σ1) ∧
      ((∃ ck, ck.Name = "token" ∧ w1.cookies = ResponseWriter.new.cookies ++ [ck]) ↔
        (0 < 1030 * Second - 985 * Second ∧ 1030 * Second - 985 * Second ≤ 30 * Second)) ∧
      (w1.cookies = ResponseWriter.new.cookies ↔
        ¬ (0 < 1030 * Second - 985 * Second ∧
          1030 * Second - 985 * Second ≤ 30 * Second))) :=
  ⟨C1_renewal_iff_window (demoEnv (fun _ => 1000 * Second)) ResponseWriter.new
      (demoRequest "tok.u1" "u7" "" "") World.start
      { Name := "token", Value := "tok.u1", Path := "", Domain := "", Expires := none,
        MaxAge := 0 }
      { Claims := claimsAt "u1" 1030, Valid := true } (1030 * Second) (1000 * Second)
      (fun _ => rfl) rfl rfl rfl,
   C1_renewal_iff_window (demoEnv (fun _ => 985 * Second)) ResponseWriter.new
      (demoRequest "tok.u1" "u7" "" "") World.start
      { Name := "token", Value := "tok.u1", Path := "", Domain := "", Expires := none,
        MaxAge := 0 }
      { Claims := claimsAt "u1" 1030, Valid := true } (1030 * Second) (985 * Second)
      (fun _ => rfl) rfl rfl rfl⟩

/-! ## Session guard: who reaches the handler -/

theorem Request_Cookie_error (r : Request) (name : String) (err : GoError)
    (h : r.Cookie name = .error err) : err = GoError.ErrNoCookie := by
  unfold Request.Cookie at h
  cases hf : r.cookies.find? (fun c => c.Name == name) with
  | some c => rw [hf] at h; simp at h
  | none =>
    rw [hf] at h
    simp only [Except.error.injEq] at h
    exact h.symm

theorem WithJWTAuthStep_no_cookie (env : Env) (w : ResponseWriter) (r : Request) (σ : World)
    (h : r.Cookie "token" = .error GoError.ErrNoCookie) :
    WithJWTAuthStep env w r σ =
      some (Step.respond (WriteJSON w StatusUnauthorized (Payload.ApiError "No Cookie")).2 σ) := by
  unfold WithJWTAuthStep
  rw [h]
  simp

theorem WithJWTAuthStep_rejected (env : Env) (w : ResponseWriter) (r : Request) (σ : World)
    (c : Cookie) (err : GoError)
    (hcookie : r.Cookie "token" = .ok c)
    (herr : (ParseWithClaims env c.Value σ).1.2 = some err) :
    WithJWTAuthStep env w r σ =
      some (Step.respond (WriteJSON w StatusBadRequest (Payload.ApiError err.Error)).2
        (ParseWithClaims env c.Value σ).2) := by
  have hne : err ≠ GoError.ErrSignatureInvalid := by
    intro h
    exact ParseWithClaims_err_ne_sentinel env c.Value σ (h ▸ herr)
  unfold WithJWTAuthStep
  rw [hcookie]
  rcases hp : ParseWithClaims env c.Value σ with ⟨⟨token, e⟩, σ1⟩
  rw [hp] at herr
  simp only at herr
  subst herr
  simp only [hp]
  simp [hne]

/-- The three ways the body of the middleware ends for a request whose verifying
token, if any, carries an expiry. -/
theorem WithJWTAuthStep_cases (env : Env) (w : ResponseWriter) (r : Request) (σ : World)
    (hexp : ∀ c token, r.Cookie "token" = .ok c →
      (ParseWithClaims env c.Value σ).1 = (token, none) → token.Claims.ExpiresAt ≠ none) :
    (r.Cookie "token" = .error GoError.ErrNoCookie ∧
      WithJWTAuthStep env w r σ =
        some (Step.respond
          (WriteJSON w StatusUnauthorized (Payload.ApiError "No Cookie")).2 σ)) ∨
    (∃ c err, r.Cookie "token" = .ok c ∧ (ParseWithClaims env c.Value σ).1.2 = some err ∧
      WithJWTAuthStep env w r σ =
        some (Step.respond (WriteJSON w StatusBadRequest (Payload.ApiError err.Error)).2
          (ParseWithClaims env c.Value σ).2)) ∨
    (∃ c w1 σ1, r.Cookie "token" = .ok c ∧ (ParseWithClaims env c.Value σ).1.2 = none ∧
      WithJWTAuthStep env w r σ = some (Step.forward w1 σ1) ∧
      (w1 = w ∨ ∃ ck, w1 = SetCookie w ck)) := by
  cases hc : r.Cookie "token" with
  | error err =>
    have := Request_Cookie_error r "token" err hc
    subst this
    exact Or.inl ⟨rfl, WithJWTAuthStep_no_cookie env w r σ hc⟩
  | ok c =>
    cases herr : (ParseWithClaims env c.Value σ).1.2 with
    | some err =>
      exact Or.inr (Or.inl ⟨c, err, rfl, herr, WithJWTAuthStep_rejected env w r σ c err hc herr⟩)
    | none =>
      have hverif : (ParseWithClaims env c.Value σ).1 = ((ParseWithClaims env c.Value σ).1.1, none) := by
        rw [← herr]
      obtain ⟨claims, _, _, _, htok, hparse⟩ := ParseWithClaims_ok env c.Value σ _ hverif
      have hne := hexp c _ hc hverif
      rw [htok] at hne
      simp only at hne
      obtain ⟨e, he⟩ := Option.ne_none_iff_exists'.1 hne
      refine Or.inr (Or.inr ?_)
      have hstep := WithJWTAuthStep_verified env w r σ c claims e hc hparse he
      by_cases h1 : Sub e (env.clock (σ.tick + 1)) ≤ 30 * Second
      · by_cases h2 : Sub e (env.clock (σ.tick + 2)) > 0 * Second
        · rw [if_pos h1, if_pos h2] at hstep
          exact ⟨c, _, _, rfl, herr, hstep, Or.inr ⟨_, rfl⟩⟩
        · rw [if_pos h1, if_neg h2] at hstep
          exact ⟨c, _, _, rfl, herr, hstep, Or.inl rfl⟩
      · rw [if_neg h1] at hstep
        exact ⟨c, _, _, rfl, herr, hstep, Or.inl rfl⟩

theorem Forwards_iff (env : Env) (w : ResponseWriter) (r : Request) (σ : World) :
    Forwards env w r σ = true ↔
      ∃ w1 σ1, WithJWTAuthStep env w r σ = some (Step.forward w1 σ1) := by
  unfold Forwards
  cases h : WithJWTAuthStep env w r σ with
  | none => simp
  | some st => cases st <;> simp

theorem Verifies_iff (env : Env) (tok : String) (σ : World)
    (hshape : ∀ claims, env.jwt.ParseUnverified tok = .ok claims → env.jwt.Verify tok = none →
      claims.ExpiresAt ≠ none ∧ claims.NotBefore = none ∧ claims.IssuedAt = none) :
    Verifies env tok σ = true ↔
      ∃ claims e, env.jwt.ParseUnverified tok = .ok claims ∧ env.jwt.Verify tok = none ∧
        claims.ExpiresAt = some e ∧ env.clock σ.tick < e := by
  constructor
  · intro hv
    have hnone : (ParseWithClaims env tok σ).1.2 = none := by
      simpa [Verifies] using hv
    have hverif : (ParseWithClaims env tok σ).1 = ((ParseWithClaims env tok σ).1.1, none) := by
      rw [← hnone]
    obtain ⟨claims, hdec, hsig, hval, _, _⟩ := ParseWithClaims_ok env tok σ _ hverif
    obtain ⟨e, he⟩ := Option.ne_none_iff_exists'.1 (hshape claims hdec hsig).1
    have h1 := ((Valid_eq_none_iff env claims.toRegisteredClaims (env.clock σ.tick)).1 hval).1
    rw [he] at h1
    exact ⟨claims, e, hdec, hsig, he, by simpa [verifyExp] using h1⟩
  · rintro ⟨claims, e, hdec, hsig, he, hlt⟩
    obtain ⟨_, hnbf, hiat⟩ := hshape claims hdec hsig
    have hval : RegisteredClaims.Valid env claims.toRegisteredClaims (env.clock σ.tick) = none := by
      rw [Valid_eq_none_iff, he, hnbf, hiat]
      exact ⟨by simpa [verifyExp] using hlt, rfl, rfl⟩
    have hp : ParseWithClaims env tok σ =
        (({ Claims := claims, Valid := true }, none), { σ with tick := σ.tick + 1 }) := by
      unfold ParseWithClaims
      rw [hdec]
      simp only [hsig, Now, hval]
    simp [Verifies, hp]

/-- C2 as stated fails on two tokens signed with the server key that the server
itself never mints.  The first has no expiry claim: its signature is valid and it
is not expired, yet the middleware dereferences the nil `ExpiresAt` and panics, so
the route handler is not reached and no error response is written either.  The
second has an expiry in the future and a not-before claim in the future: its
signature is valid and it is not expired, yet it is answered 400. -/
theorem C2_counterexample :
    (¬ (Forwards (demoEnv (fun _ => 1000 * Second)) ResponseWriter.new
          (demoRequest "tok.noexp" "u7" "" "") World.start = true ↔
        ∃ c claims, (demoRequest "tok.noexp" "u7" "" "").Cookie "token" = .ok c ∧
          (demoEnv (fun _ => 1000 * Second)).jwt.ParseUnverified c.Value = .ok claims ∧
          (demoEnv (fun _ => 1000 * Second)).jwt.Verify c.Value = none ∧
          verifyExp claims.ExpiresAt (1000 * Second) = true)) ∧
    WithJWTAuthStep (demoEnv (fun _ => 1000 * Second)) ResponseWriter.new
      (demoRequest "tok.noexp" "u7" "" "") World.start = none ∧
    (¬ (Forwards (demoEnv (fun _ => 1000 * Second)) ResponseWriter.new
          (demoRequest "tok.nbf" "u7" "" "") World.start = true ↔
        ∃ c claims, (demoRequest "tok.nbf" "u7" "" "").Cookie "token" = .ok c ∧
          (demoEnv (fun _ => 1000 * Second)).jwt.ParseUnverified c.Value = .ok claims ∧
          (demoEnv (fun _ => 1000 * Second)).jwt.Verify c.Value = none ∧
          verifyExp claims.ExpiresAt (1000 * Second) = true)) ∧
    WithJWTAuthStep (demoEnv (fun _ => 1000 * Second)) ResponseWriter.new
        (demoRequest "tok.nbf" "u7" "" "") World.start =
      some (Step.respond
        { Header := [("Content-Type", "application/json")], cookies := [],
          status := some StatusBadRequest,
          body := [Payload.ApiError "token is not valid yet"] }
        { tick := 1, trace := [] }) := by
  refine ⟨?_, rfl, ?_, rfl⟩
  · intro h
    have hf : Forwards (demoEnv (fun _ => 1000 * Second)) ResponseWriter.new
        (demoRequest "tok.noexp" "u7" "" "") World.start = false := by decide
    rw [h.2 ⟨{ Name := "token", Value := "tok.noexp", Path := "", Domain := "",
               Expires := none, MaxAge := 0 },
             { User_ID := "u1", ExpiresAt := none, NotBefore := none, IssuedAt := none },
             rfl, rfl, rfl, rfl⟩] at hf
    exact Bool.noConfusion hf
  · intro h
    have hf : Forwards (demoEnv (fun _ => 1000 * Second)) ResponseWriter.new
        (demoRequest "tok.nbf" "u7" "" "") World.start = false := by decide
    rw [h.2 ⟨{ Name := "token", Value := "tok.nbf", Path := "", Domain := "",
               Expires := none, MaxAge := 0 },
             { User_ID := "u1", ExpiresAt := some (1030 * Second),
               NotBefore := some (5000 * Second), IssuedAt := none },
             rfl, rfl, rfl, by decide⟩] at hf
    exact Bool.noConfusion hf

/-- C2, amended. For every request whose `token` cookie, when its signature is
valid, carries the claims this server mints (an expiry, no not-before and no
issued-at claim): the middleware reaches the route handler if and only if the
request has a cookie `token` whose value decodes, has a valid signature under the
key and an expiry after the clock reading of the verification; when it reaches the
handler it has written no status and no body and the response is the handler's;
when it does not, it answers with the JSON error body and status 400 or 401 and the
handler is not called; with no cookie the answer is 401 with the error
`No Cookie`. -/
theorem C2_guard_forwards_iff_verifies (env : Env) (w : ResponseWriter) (r : Request)
    (σ : World)
    (hshape : ∀ c claims, r.Cookie "token" = .ok c →
      env.jwt.ParseUnverified c.Value = .ok claims → env.jwt.Verify c.Value = none →
      claims.ExpiresAt ≠ none ∧ claims.NotBefore = none ∧ claims.IssuedAt = none) :
    (Forwards env w r σ = true ↔
      ∃ c claims e, r.Cookie "token" = .ok c ∧
        env.jwt.ParseUnverified c.Value = .ok claims ∧ env.jwt.Verify c.Value = none ∧
        claims.ExpiresAt = some e ∧ env.clock σ.tick < e) ∧
    (∀ w1 σ1, WithJWTAuthStep env w r σ = some (Step.forward w1 σ1) →
      w1.status = w.status ∧ w1.body = w.body ∧
      ∀ next, WithJWTAuth env next w r σ = next w1 r σ1) ∧
    (Forwards env w r σ = false →
      ∃ code msg σ1, (code = StatusBadRequest ∨ code = StatusUnauthorized) ∧
        WithJWTAuthStep env w r σ =
          some (Step.respond (WriteJSON w code (Payload.ApiError msg)).2 σ1) ∧
        ∀ next, WithJWTAuth env next w r σ =
          some ((WriteJSON w code (Payload.ApiError msg)).2, σ1)) ∧
    (r.Cookie "token" = .error GoError.ErrNoCookie →
      WithJWTAuthStep env w r σ =
        some (Step.respond
          (WriteJSON w StatusUnauthorized (Payload.ApiError "No Cookie")).2 σ)) := by
  have hexp : ∀ c token, r.Cookie "token" = .ok c →
      (ParseWithClaims env c.Value σ).1 = (token, none) → token.Claims.ExpiresAt ≠ none := by
    intro c token hc hp
    obtain ⟨claims, hdec, hsig, _, htok, _⟩ := ParseWithClaims_ok env c.Value σ token hp
    subst htok
    exact (hshape c claims hc hdec hsig).1
  have hmw : ∀ st, WithJWTAuthStep env w r σ = some st → ∀ next,
      WithJWTAuth env next w r σ =
        match st with
        | Step.respond w1 σ1 => some (w1, σ1)
        | Step.forward w1 σ1 => next w1 r σ1 := by
    intro st hst next
    unfold WithJWTAuth
    rw [hst]
    cases st <;> rfl
  have hiff : Forwards env w r σ = true ↔
      ∃ c, r.Cookie "token" = .ok c ∧ Verifies env c.Value σ = true := by
    rw [Forwards_iff]
    rcases WithJWTAuthStep_cases env w r σ hexp with ⟨hc, hs⟩ | ⟨c, err, hc, herr, hs⟩ |
      ⟨c, w1, σ1, hc, hok, hs, _⟩
    · rw [hs, hc]; simp
    · constructor
      · rintro ⟨w1, σ1, h⟩
        rw [hs] at h
        simp at h
      · rintro ⟨c1, hc1, hv⟩
        rw [hc] at hc1
        simp only [Except.ok.injEq] at hc1
        subst hc1
        simp [Verifies, herr] at hv
    · constructor
      · intro _
        exact ⟨c, hc, by simp [Verifies, hok]⟩
      · intro _
        exact ⟨w1, σ1, hs⟩
  refine ⟨?_, ?_, ?_, fun h => WithJWTAuthStep_no_cookie env w r σ h⟩
  · rw [hiff]
    constructor
    · rintro ⟨c, hc, hv⟩
      obtain ⟨claims, e, h1, h2, h3, h4⟩ :=
        (Verifies_iff env c.Value σ (fun claims => hshape c claims hc)).1 hv
      exact ⟨c, claims, e, hc, h1, h2, h3, h4⟩
    · rintro ⟨c, claims, e, hc, h1, h2, h3, h4⟩
      exact ⟨c, hc, (Verifies_iff env c.Value σ (fun claims => hshape c claims hc)).2
        ⟨claims, e, h1, h2, h3, h4⟩⟩
  · intro w1 σ1 hfw
    refine ⟨?_, ?_, fun next => hmw _ hfw next⟩
    all_goals
      rcases WithJWTAuthStep_cases env w r σ hexp with ⟨_, hs⟩ | ⟨c, err, _, _, hs⟩ |
        ⟨c, w2, σ2, _, _, hs, hw⟩
      · rw [hs] at hfw; simp at hfw
      · rw [hs] at hfw; simp at hfw
      · rw [hs] at hfw
        simp only [Option.some.injEq, Step.forward.injEq] at hfw
        obtain ⟨rfl, rfl⟩ := hfw
        rcases hw with rfl | ⟨ck, rfl⟩ <;> rfl
  · intro hnf
    rcases WithJWTAuthStep_cases env w r σ hexp with ⟨_, hs⟩ | ⟨c, err, _, _, hs⟩ |
      ⟨c, w2, σ2, _, _, hs, _⟩
    · exact ⟨StatusUnauthorized, "No Cookie", σ, Or.inr rfl, hs, fun next => hmw _ hs next⟩
    · exact ⟨StatusBadRequest, err.Error, _, Or.inl rfl, hs, fun next => hmw _ hs next⟩
    · have := (Forwards_iff env w r σ).2 ⟨w2, σ2, hs⟩
      rw [this] at hnf
      exact Bool.noConfusion hnf

/-- C2 on a request whose cookie verifies, with 25 seconds remaining, so that the
middleware also renews. -/
theorem C2_guard_forwards_iff_verifies_witness :
    (Forwards (demoEnv (fun _ => 1005 * Second)) ResponseWriter.new
        (demoRequest "tok.u1" "u7" "" "") World.start = true ↔
      ∃ c claims e, (demoRequest "tok.u1" "u7" "" "").Cookie "token" = .ok c ∧
        (demoEnv (fun _ => 1005 * Second)).jwt.ParseUnverified c.Value = .ok claims ∧
        (demoEnv (fun _ => 1005 * Second)).jwt.Verify c.Value = none ∧
        claims.ExpiresAt = some e ∧
        (demoEnv (fun _ => 1005 * Second)).clock World.start.tick < e) ∧
    (∀ w1 σ1, WithJWTAuthStep (demoEnv (fun _ => 1005 * Second)) ResponseWriter.new
        (demoRequest "tok.u1" "u7" "" "") World.start = some (Step.forward w1 σ1) →
      w1.status = ResponseWriter.new.status ∧ w1.body = ResponseWriter.new.body ∧
      ∀ next, WithJWTAuth (demoEnv (fun _ => 1005 * Second)) next ResponseWriter.new
        (demoRequest "tok.u1" "u7" "" "") World.start =
          next w1 (demoRequest "tok.u1" "u7" "" "") σ1) ∧
    (Forwards (demoEnv (fun _ => 1005 * Second)) ResponseWriter.new
        (demoRequest "tok.u1" "u7" "" "") World.start = false →
      ∃ code msg σ1, (code = StatusBadRequest ∨ code = StatusUnauthorized) ∧
        WithJWTAuthStep (demoEnv (fun _ => 1005 * Second)) ResponseWriter.new
            (demoRequest "tok.u1" "u7" "" "") World.start =
          some (Step.respond
            (WriteJSON ResponseWriter.new code (Payload.ApiError msg)).2 σ1) ∧
        ∀ next, WithJWTAuth (demoEnv (fun _ => 1005 * Second)) next ResponseWriter.new
            (demoRequest "tok.u1" "u7" "" "") World.start =
          some ((WriteJSON ResponseWriter.new code (Payload.ApiError msg)).2, σ1)) ∧
    ((demoRequest "tok.u1" "u7" "" "").Cookie "token" = .error GoError.ErrNoCookie →
      WithJWTAuthStep (demoEnv (fun _ => 1005 * Second)) ResponseWriter.new
          (demoRequest "tok.u1" "u7" "" "") World.start =
        some (Step.respond
          (WriteJSON ResponseWriter.new StatusUnauthorized
            (Payload.ApiError "No Cookie")).2 World.start)) :=
  C2_guard_forwards_iff_verifies (demoEnv (fun _ => 1005 * Second)) ResponseWriter.new
    (demoRequest "tok.u1" "u7" "" "") World.start
    (fun c claims hc hp _ => by
      have h : (demoRequest "tok.u1" "u7" "" "").Cookie "token" =
          .ok { Name := "token", Value := "tok.u1", Path := "", Domain := "",
                Expires := none, MaxAge := 0 } := rfl
      rw [h] at hc
      simp only [Except.ok.injEq] at hc
      subst hc
      have h2 : (demoEnv (fun _ => 1005 * Second)).jwt.ParseUnverified "tok.u1" =
          .ok (claimsAt "u1" 1030) := rfl
      rw [h2] at hp
      simp only [Except.ok.injEq] at hp
      subst hp
      simp [claimsAt])

/-! ## Signature failures -/

theorem ParseWithClaims_bad_signature (env : Env) (tok : String) (σ : World)
    (claims : ClaimsType) (err : GoError)
    (hdec : env.jwt.ParseUnverified tok = .ok claims)
    (hsig : env.jwt.Verify tok = some err) :
    ParseWithClaims env tok σ =
      (({ Claims := claims, Valid := false },
        some (GoError.ValidationError err ValidationErrorSignatureInvalid)), σ) := by
  unfold ParseWithClaims
  rw [hdec]
  simp only [hsig]

theorem handleVerifyLogin_rejected (env : Env) (s : APIServer) (w : ResponseWriter)
    (r : Request) (σ : World) (err : GoError)
    (herr : (ParseWithClaims env (URLParam r "token") σ).1.2 = some err) :
    handleVerifyLogin env s w r σ =
      some (none, (WriteJSON w StatusBadRequest (Payload.ApiError err.Error)).2,
        (ParseWithClaims env (URLParam r "token") σ).2) := by
  have hne : err ≠ GoError.ErrSignatureInvalid := by
    intro h
    exact ParseWithClaims_err_ne_sentinel env _ σ (h ▸ herr)
  unfold handleVerifyLogin
  rcases hp : ParseWithClaims env (URLParam r "token") σ with ⟨⟨token, e⟩, σ1⟩
  rw [hp] at herr
  simp only at herr
  subst herr
  simp only [hp]
  simp [hne, WriteJSON]

/-- C3, on the code. For a token that decodes but whose signature check returns
`jwt.ErrSignatureInvalid`, the error `ParseWithClaims` returns is the wrapping
`*jwt.ValidationError`, not the sentinel the two handlers compare with: both the
middleware and `handleVerifyLogin` answer 400 with the error `signature is
invalid`, which is not the 401 answer `Signature Invalid`. -/
theorem C3_bad_signature_answers_400 (env : Env) (s : APIServer) (w : ResponseWriter)
    (r rv : Request) (σ : World) (c : Cookie) (claims : ClaimsType)
    (hcookie : r.Cookie "token" = .ok c)
    (hparam : URLParam rv "token" = c.Value)
    (hdec : env.jwt.ParseUnverified c.Value = .ok claims)
    (hsig : env.jwt.Verify c.Value = some GoError.ErrSignatureInvalid) :
    WithJWTAuthStep env w r σ =
      some (Step.respond
        (WriteJSON w StatusBadRequest (Payload.ApiError "signature is invalid")).2 σ) ∧
    handleVerifyLogin env s w rv σ =
      some (none, (WriteJSON w StatusBadRequest (Payload.ApiError "signature is invalid")).2, σ) ∧
    (WriteJSON w StatusBadRequest (Payload.ApiError "signature is invalid")).2 ≠
      (WriteJSON w StatusUnauthorized (Payload.ApiError "Signature Invalid")).2 := by
  have hp := ParseWithClaims_bad_signature env c.Value σ claims _ hdec hsig
  refine ⟨?_, ?_, ?_⟩
  · have h := WithJWTAuthStep_rejected env w r σ c
      (GoError.ValidationError GoError.ErrSignatureInvalid ValidationErrorSignatureInvalid)
      hcookie (by rw [hp])
    rw [hp] at h
    exact h
  · have h := handleVerifyLogin_rejected env s w rv σ
      (GoError.ValidationError GoError.ErrSignatureInvalid ValidationErrorSignatureInvalid)
      (by rw [hparam, hp])
    rw [hparam, hp] at h
    exact h
  · intro h
    have hb := congrArg ResponseWriter.body h
    simp [WriteJSON, WriteHeader] at hb
    have hb2 : w.body ++ [Payload.ApiError "signature is invalid"] =
        w.body ++ [Payload.ApiError "Signature Invalid"] := by
      cases hst : w.status <;> simp [hst] at hb
    have := List.append_cancel_left hb2
    simp at this

/-- C3 at the token `tok.forged`, whose signature does not verify. -/
theorem C3_bad_signature_answers_400_witness :
    WithJWTAuthStep (demoEnv (fun _ => 1000 * Second)) ResponseWriter.new
        (demoRequest "tok.forged" "u7" "tok.forged" "") World.start =
      some (Step.respond
        (WriteJSON ResponseWriter.new StatusBadRequest
          (Payload.ApiError "signature is invalid")).2 World.start) ∧
    handleVerifyLogin (demoEnv (fun _ => 1000 * Second)) demoServer ResponseWriter.new
        (demoRequest "tok.forged" "u7" "tok.forged" "") World.start =
      some (none, (WriteJSON ResponseWriter.new StatusBadRequest
        (Payload.ApiError "signature is invalid")).2, World.start) ∧
    (WriteJSON ResponseWriter.new StatusBadRequest (Payload.ApiError "signature is invalid")).2 ≠
      (WriteJSON ResponseWriter.new StatusUnauthorized
        (Payload.ApiError "Signature Invalid")).2 :=
  C3_bad_signature_answers_400 (demoEnv (fun _ => 1000 * Second)) demoServer
    ResponseWriter.new (demoRequest "tok.forged" "u7" "tok.forged" "")
    (demoRequest "tok.forged" "u7" "tok.forged" "") World.start
    { Name := "token", Value := "tok.forged", Path := "", Domain := "", Expires := none,
      MaxAge := 0 }
    (claimsAt "u1" 1030) rfl rfl rfl rfl

/-! ## Mint, then redeem -/

theorem CreateJWT_eq (env : Env) (user_id : String) (σ : World) :
    CreateJWT env user_id σ =
      (.ok (env.jwt.Encode (mintedClaims user_id (env.clock σ.tick))),
        { tick := σ.tick + 1,
          trace := σ.trace ++ [Effect.SignedString (mintedClaims user_id (env.clock σ.tick))] }) := by
  simp [CreateJWT, SignedString, Now, World.log, mintedClaims]

theorem ParseWithClaims_valid (env : Env) (tok : String) (σ : World) (claims : ClaimsType)
    (hdec : env.jwt.ParseUnverified tok = .ok claims)
    (hsig : env.jwt.Verify tok = none)
    (hval : RegisteredClaims.Valid env claims.toRegisteredClaims (env.clock σ.tick) = none) :
    ParseWithClaims env tok σ =
      (({ Claims := claims, Valid := true }, none), { tick := σ.tick + 1, trace := σ.trace }) := by
  unfold ParseWithClaims
  rw [hdec]
  simp only [hsig, Now, hval]

/-- C4 as stated fails in the last fraction of a second. A token minted for `u9`
at 0.5 s expires at 86400 s sharp, the 24 hours being rounded down to the whole
second; redeemed at 86400.2 s, which is before 0.5 s + 24 h, it is answered 400
and no cookie is set. -/
theorem C4_counterexample :
    (CreateJWT (demoEnv lateClock) "u9" World.start).1 = .ok "tok.u9" ∧
    lateClock 0 ≤ lateClock 1 ∧ lateClock 1 < lateClock 0 + 24 * Hour ∧
    handleVerifyLogin (demoEnv lateClock) demoServer ResponseWriter.new
        (demoRequest "" "" "tok.u9" "") (CreateJWT (demoEnv lateClock) "u9" World.start).2 =
      some (none,
        { Header := [("Content-Type", "application/json")], cookies := [],
          status := some StatusBadRequest,
          body := [Payload.ApiError "token is expired by 200ms"] },
        { tick := 2, trace := [Effect.SignedString (claimsAt "u9" 86400)] }) := by
  refine ⟨rfl, by decide, by decide, rfl⟩

/-- C4, amended. A token minted by `CreateJWT` for `user_id` when the clock reads
`t0`, redeemed by `handleVerifyLogin` at any clock reading before its expiry,
verifies: the decoded claims carry `user_id` and the expiry `t0 + 24h` rounded down
to the whole second (more than `t0 + 24h - 1s`, at most `t0 + 24h`), the answer is
200 with the status `ok`, and the cookie set is named `token`, has the presented
token string as value, the token's expiry as expiration and the path `/` (the
`Set-Cookie` line has no domain attribute: the one in the code is not a valid
cookie domain and is left out).  The codec is assumed to decode and verify the
string it has just signed. -/
theorem C4_mint_then_redeem (env : Env) (s : APIServer) (user_id : String) (σ0 : World)
    (w : ResponseWriter) (r : Request) (σ : World)
    (hdec : env.jwt.ParseUnverified (env.jwt.Encode (mintedClaims user_id (env.clock σ0.tick))) =
      .ok (mintedClaims user_id (env.clock σ0.tick)))
    (hsig : env.jwt.Verify (env.jwt.Encode (mintedClaims user_id (env.clock σ0.tick))) = none)
    (hparam : URLParam r "token" = env.jwt.Encode (mintedClaims user_id (env.clock σ0.tick)))
    (ht : env.clock σ.tick < NewNumericDate (env.clock σ0.tick + 24 * Hour)) :
    (CreateJWT env user_id σ0).1 =
      .ok (env.jwt.Encode (mintedClaims user_id (env.clock σ0.tick))) ∧
    (ParseWithClaims env (env.jwt.Encode (mintedClaims user_id (env.clock σ0.tick))) σ).1 =
      ({ Claims := mintedClaims user_id (env.clock σ0.tick), Valid := true }, none) ∧
    (mintedClaims user_id (env.clock σ0.tick)).User_ID = user_id ∧
    (mintedClaims user_id (env.clock σ0.tick)).ExpiresAt =
      some (NewNumericDate (env.clock σ0.tick + 24 * Hour)) ∧
    env.clock σ0.tick + 24 * Hour - Second < NewNumericDate (env.clock σ0.tick + 24 * Hour) ∧
    NewNumericDate (env.clock σ0.tick + 24 * Hour) ≤ env.clock σ0.tick + 24 * Hour ∧
    handleVerifyLogin env s w r σ =
      some (none,
        (WriteJSON
          (SetCookie w
            { Name := "token",
              Value := env.jwt.Encode (mintedClaims user_id (env.clock σ0.tick)),
              Expires := some (NewNumericDate (env.clock σ0.tick + 24 * Hour)),
              Domain := "http://localhost:8080", Path := "/", MaxAge := 0 })
          StatusOK (Payload.status "ok")).2,
        { tick := σ.tick + 1, trace := σ.trace }) ∧
    (handleVerifyLogin env s w r σ).map (fun res => res.2.1.cookies) =
      some (w.cookies ++
        [{ Name := "token",
           Value := env.jwt.Encode (mintedClaims user_id (env.clock σ0.tick)),
           Expires := some (NewNumericDate (env.clock σ0.tick + 24 * Hour)),
           Domain := "", Path := "/", MaxAge := 0 }]) := by
  have hmul : env.clock σ0.tick + Hour * 24 = env.clock σ0.tick + 24 * Hour := by ring
  have hexp : (mintedClaims user_id (env.clock σ0.tick)).ExpiresAt =
      some (NewNumericDate (env.clock σ0.tick + 24 * Hour)) := by
    simp [mintedClaims, hmul]
  have hval : RegisteredClaims.Valid env
      (mintedClaims user_id (env.clock σ0.tick)).toRegisteredClaims (env.clock σ.tick) = none := by
    rw [Valid_eq_none_iff]
    refine ⟨?_, rfl, rfl⟩
    rw [hexp]
    simpa [verifyExp] using ht
  have hp := ParseWithClaims_valid env _ σ _ hdec hsig hval
  have hb := Truncate_bounds (env.clock σ0.tick + 24 * Hour)
  have hlogin : handleVerifyLogin env s w r σ =
      some (none,
        (WriteJSON
          (SetCookie w
            { Name := "token",
              Value := env.jwt.Encode (mintedClaims user_id (env.clock σ0.tick)),
              Expires := some (NewNumericDate (env.clock σ0.tick + 24 * Hour)),
              Domain := "http://localhost:8080", Path := "/", MaxAge := 0 })
          StatusOK (Payload.status "ok")).2,
        { tick := σ.tick + 1, trace := σ.trace }) := by
    unfold handleVerifyLogin
    rw [hparam]
    simp only [hp, hexp, Bool.not_true, Bool.false_eq_true, if_false]
    rfl
  refine ⟨?_, ?_, rfl, hexp, hb.1, hb.2.1, hlogin, ?_⟩
  · rw [CreateJWT_eq]
  · rw [hp]
  · have hdom : validCookieDomain "http://localhost:8080" = false := by decide
    rw [hlogin]
    cases hst : w.status <;>
      simp [WriteJSON, WriteHeader, SetCookie, Cookie.line, hdom, hst, Truncate_NewNumericDate]

/-- C4 on the token minted for `u9` at 0.5 s and redeemed at 1.5 s. -/
theorem C4_mint_then_redeem_witness :
    (CreateJWT (demoEnv (fun k => if k = 0 then 500000000 else 1500000000)) "u9"
      World.start).1 = .ok "tok.u9" ∧
    handleVerifyLogin (demoEnv (fun k => if k = 0 then 500000000 else 1500000000)) demoServer
        ResponseWriter.new (demoRequest "" "" "tok.u9" "")
        { tick := 1, trace := [] } =
      some (none,
        { Header := [("Content-Type", "application/json")],
          cookies := [{ Name := "token", Value := "tok.u9", Expires := some (86400 * Second),
                        Domain := "", Path := "/", MaxAge := 0 }],
          status := some StatusOK, body := [Payload.status "ok"] },
        { tick := 2, trace := [] }) :=
  have h := C4_mint_then_redeem (demoEnv (fun k => if k = 0 then 500000000 else 1500000000))
    demoServer "u9" World.start ResponseWriter.new (demoRequest "" "" "tok.u9" "")
    { tick := 1, trace := [] } rfl rfl rfl (by decide)
  ⟨h.1, h.2.2.2.2.2.2.1⟩

/-! ## Expired tokens -/

theorem ParseWithClaims_trace (env : Env) (tok : String) (σ : World) :
    (ParseWithClaims env tok σ).2.trace = σ.trace := by
  unfold ParseWithClaims
  cases hp : env.jwt.ParseUnverified tok with
  | error e => rfl
  | ok claims =>
    cases hv : env.jwt.Verify tok with
    | some err => rfl
    | none =>
      simp only [Now]
      cases hval : RegisteredClaims.Valid env claims.toRegisteredClaims (env.clock σ.tick) <;> rfl

theorem ParseWithClaims_expired (env : Env) (tok : String) (σ : World) (claims : ClaimsType)
    (e : Int)
    (hdec : env.jwt.ParseUnverified tok = .ok claims)
    (hexp : claims.ExpiresAt = some e)
    (hlate : e ≤ env.clock σ.tick) :
    ∃ err, (ParseWithClaims env tok σ).1.2 = some err := by
  cases hres : (ParseWithClaims env tok σ).1.2 with
  | some err => exact ⟨err, rfl⟩
  | none =>
    exfalso
    have hverif : (ParseWithClaims env tok σ).1 = ((ParseWithClaims env tok σ).1.1, none) := by
      rw [← hres]
    obtain ⟨claims1, hdec1, _, hval, _, _⟩ := ParseWithClaims_ok env tok σ _ hverif
    rw [hdec] at hdec1
    simp only [Except.ok.injEq] at hdec1
    subst hdec1
    have h := ((Valid_eq_none_iff env claims.toRegisteredClaims (env.clock σ.tick)).1 hval).1
    rw [hexp] at h
    simp only [verifyExp, decide_eq_true_eq] at h
    omega

/-- C5. A token whose expiry `e` is not after the clock reading at verification is
accepted by neither path: it does not verify; `handleVerifyLogin` answers 400 and
leaves the cookies as they were; the middleware answers 400, does not reach the
route handler, leaves the cookies as they were and signs no token. -/
theorem C5_expired_token_rejected (env : Env) (s : APIServer) (w : ResponseWriter)
    (r rv : Request) (σ : World) (c : Cookie) (claims : ClaimsType) (e : Int)
    (hcookie : r.Cookie "token" = .ok c)
    (hparam : URLParam rv "token" = c.Value)
    (hdec : env.jwt.ParseUnverified c.Value = .ok claims)
    (hexp : claims.ExpiresAt = some e)
    (hlate : e ≤ env.clock σ.tick) :
    Verifies env c.Value σ = false ∧
    (∃ msg σ1, handleVerifyLogin env s w rv σ =
        some (none, (WriteJSON w StatusBadRequest (Payload.ApiError msg)).2, σ1) ∧
      (WriteJSON w StatusBadRequest (Payload.ApiError msg)).2.cookies = w.cookies) ∧
    Forwards env w r σ = false ∧
    (∃ msg σ1, WithJWTAuthStep env w r σ =
        some (Step.respond (WriteJSON w StatusBadRequest (Payload.ApiError msg)).2 σ1) ∧
      (WriteJSON w StatusBadRequest (Payload.ApiError msg)).2.cookies = w.cookies ∧
      σ1.trace = σ.trace) := by
  obtain ⟨err, herr⟩ := ParseWithClaims_expired env c.Value σ claims e hdec hexp hlate
  have hcookies : ∀ code msg, (WriteJSON w code (Payload.ApiError msg)).2.cookies = w.cookies := by
    intro code msg
    cases hst : w.status <;> simp [WriteJSON, WriteHeader, hst]
  have hstep := WithJWTAuthStep_rejected env w r σ c err hcookie herr
  have hlogin := handleVerifyLogin_rejected env s w rv σ err (by rw [hparam]; exact herr)
  refine ⟨by simp [Verifies, herr], ⟨err.Error, _, hlogin, hcookies _ _⟩, ?_,
    ⟨err.Error, _, hstep, hcookies _ _, ParseWithClaims_trace env c.Value σ⟩⟩
  unfold Forwards
  rw [hstep]

/-- C5 on the token `tok.u1`, expired at second 1030, presented at second 2000. -/
theorem C5_expired_token_rejected_witness :
    Verifies (demoEnv (fun _ => 2000 * Second)) "tok.u1" World.start = false ∧
    (∃ msg σ1, handleVerifyLogin (demoEnv (fun _ => 2000 * Second)) demoServer
        ResponseWriter.new (demoRequest "tok.u1" "u7" "tok.u1" "") World.start =
        some (none, (WriteJSON ResponseWriter.new StatusBadRequest (Payload.ApiError msg)).2, σ1) ∧
      (WriteJSON ResponseWriter.new StatusBadRequest (Payload.ApiError msg)).2.cookies =
        ResponseWriter.new.cookies) ∧
    Forwards (demoEnv (fun _ => 2000 * Second)) ResponseWriter.new
      (demoRequest "tok.u1" "u7" "tok.u1" "") World.start = false ∧
    (∃ msg σ1, WithJWTAuthStep (demoEnv (fun _ => 2000 * Second)) ResponseWriter.new
        (demoRequest "tok.u1" "u7" "tok.u1" "") World.start =
        some (Step.respond
          (WriteJSON ResponseWriter.new StatusBadRequest (Payload.ApiError msg)).2 σ1) ∧
      (WriteJSON ResponseWriter.new StatusBadRequest (Payload.ApiError msg)).2.cookies =
        ResponseWriter.new.cookies ∧
      σ1.trace = World.start.trace) :=
  C5_expired_token_rejected (demoEnv (fun _ => 2000 * Second)) demoServer ResponseWriter.new
    (demoRequest "tok.u1" "u7" "tok.u1" "") (demoRequest "tok.u1" "u7" "tok.u1" "") World.start
    { Name := "token", Value := "tok.u1", Path := "", Domain := "", Expires := none, MaxAge := 0 }
    (claimsAt "u1" 1030) (1030 * Second) rfl rfl rfl rfl (by decide)

/-! ## Session guard: the renewed token -/

/-- C6 as stated fails off the whole second.  On a clock frozen at 1005.5 s the
token `tok.u1`, which expires at 1030 s, has 24.5 s remaining and is renewed: the
new token's expiry is 87405 s and so is the expiration in the `Set-Cookie` line,
both rounded down to the whole second, not `now + 24h`, which is 87405.5 s. -/
theorem C6_counterexample :
    0 < 1030 * Second - 1005500000000 ∧ 1030 * Second - 1005500000000 ≤ 30 * Second ∧
    WithJWTAuthStep (demoEnv (fun _ => 1005500000000)) ResponseWriter.new
        (demoRequest "tok.u1" "u7" "" "") World.start =
      some (Step.forward
        { Header := [],
          cookies := [{ Name := "token", Value := "tok.u1.r25",
                        Expires := some (87405 * Second), Domain := "", Path := "",
                        MaxAge := 0 }],
          status := none, body := [] }
        { tick := 4, trace := [Effect.SignedString (claimsAt "u1" 87405)] }) ∧
    (demoEnv (fun _ => 1005500000000)).jwt.ParseUnverified "tok.u1.r25" =
      .ok (claimsAt "u1" 87405) ∧
    (claimsAt "u1" 87405).ExpiresAt = some (87405 * Second) ∧
    87405 * Second ≠ 1005500000000 + 24 * Hour := by
  refine ⟨by decide, by decide, rfl, rfl, rfl, by decide⟩

/-- C6, amended. On a frozen clock reading `now`, for a verified token with
`0 < e - now ≤ 30s`, the middleware hands `http.SetCookie` a cookie `token` with the
expiration `now + 24h` whose value is the string signed for the presented claims
with the expiry replaced by `now + 24h` rounded down to the whole second (more than
`now + 24h - 1s`, at most `now + 24h`); that string decodes to the same `user_id`
and differs from the presented string; the `Set-Cookie` line carries the expiration
rounded down to the whole second, the instant of the new token's expiry.  The codec
is assumed to decode the string it has just signed. -/
theorem C6_renewed_token (env : Env) (w : ResponseWriter) (r : Request) (σ : World)
    (c : Cookie) (token : Token) (e now : Int)
    (hclock : ∀ k, env.clock k = now)
    (hcookie : r.Cookie "token" = .ok c)
    (hverif : (ParseWithClaims env c.Value σ).1 = (token, none))
    (hexp : token.Claims.ExpiresAt = some e)
    (hwin : 0 < e - now ∧ e - now ≤ 30 * Second)
    (hrt : env.jwt.ParseUnverified (env.jwt.Encode
        { token.Claims with ExpiresAt := some (NewNumericDate (now + 24 * Hour)) }) =
      .ok { token.Claims with ExpiresAt := some (NewNumericDate (now + 24 * Hour)) }) :
    ∃ newTokenString newClaims w1 σ1,
      WithJWTAuthStep env w r σ = some (Step.forward w1 σ1) ∧
      w1 = SetCookie w
        { Name := "token", Value := newTokenString, Expires := some (now + 24 * Hour),
          Domain := "", Path := "", MaxAge := 0 } ∧
      w1.cookies = w.cookies ++
        [{ Name := "token", Value := newTokenString,
           Expires := some (NewNumericDate (now + 24 * Hour)),
           Domain := "", Path := "", MaxAge := 0 }] ∧
      env.jwt.ParseUnverified newTokenString = .ok newClaims ∧
      newClaims.User_ID = token.Claims.User_ID ∧
      newClaims.ExpiresAt = some (NewNumericDate (now + 24 * Hour)) ∧
      now + 24 * Hour - Second < NewNumericDate (now + 24 * Hour) ∧
      NewNumericDate (now + 24 * Hour) ≤ now + 24 * Hour ∧
      newTokenString ≠ c.Value := by
  obtain ⟨claims, hdec, _, _, htok, hparse⟩ := ParseWithClaims_ok env c.Value σ token hverif
  subst htok
  simp only at hexp hrt
  have hstep := WithJWTAuthStep_verified env w r σ c claims e hcookie hparse hexp
  simp only [hclock, Sub_le_thirty, Sub_pos] at hstep
  rw [if_pos hwin.2, if_pos hwin.1] at hstep
  have hb := Truncate_bounds (now + 24 * Hour)
  refine ⟨_, _, _, _, hstep, rfl, ?_, hrt, rfl, rfl, hb.1, hb.2.1, ?_⟩
  · rw [renewalCookie, SetCookie_cookies]
    rfl
  · intro heq
    rw [heq, hdec] at hrt
    simp only [Except.ok.injEq] at hrt
    have h2 := congrArg (fun x : ClaimsType => x.ExpiresAt) hrt
    simp only [hexp, Option.some.injEq] at h2
    have h3 := hb.1
    have h4 := hwin.2
    unfold NewNumericDate at h2
    generalize Truncate (now + 24 * Hour) = t at h2 h3
    unfold Hour Second at h3
    unfold Second at h4
    omega

/-- C6 with 24.5 seconds remaining: expiry at second 1030, clock at 1005.5 s. -/
theorem C6_renewed_token_witness :
    ∃ newTokenString newClaims w1 σ1,
      WithJWTAuthStep (demoEnv (fun _ => 1005500000000)) ResponseWriter.new
          (demoRequest "tok.u1" "u7" "" "") World.start = some (Step.forward w1 σ1) ∧
      w1 = SetCookie ResponseWriter.new
        { Name := "token", Value := newTokenString,
          Expires := some (1005500000000 + 24 * Hour),
          Domain := "", Path := "", MaxAge := 0 } ∧
      w1.cookies = ResponseWriter.new.cookies ++
        [{ Name := "token", Value := newTokenString,
           Expires := some (NewNumericDate (1005500000000 + 24 * Hour)),
           Domain := "", Path := "", MaxAge := 0 }] ∧
      (demoEnv (fun _ => 1005500000000)).jwt.ParseUnverified newTokenString = .ok newClaims ∧
      newClaims.User_ID = "u1" ∧
      newClaims.ExpiresAt = some (NewNumericDate (1005500000000 + 24 * Hour)) ∧
      1005500000000 + 24 * Hour - Second < NewNumericDate (1005500000000 + 24 * Hour) ∧
      NewNumericDate (1005500000000 + 24 * Hour) ≤ 1005500000000 + 24 * Hour ∧
      newTokenString ≠ "tok.u1" :=
  C6_renewed_token (demoEnv (fun _ => 1005500000000)) ResponseWriter.new
    (demoRequest "tok.u1" "u7" "" "") World.start
    { Name := "token", Value := "tok.u1", Path := "", Domain := "", Expires := none, MaxAge := 0 }
    { Claims := claimsAt "u1" 1030, Valid := true } (1030 * Second) 1005500000000
    (fun _ => rfl) rfl rfl rfl (by decide) rfl

/-! ## Errors returned by handlers -/

/-- C7 as stated fails: a failure of the store in `GetAllMedicine` is answered with
status 400, which is not 500. -/
theorem C7_counterexample :
    makeHTTPHandleFunc (handleGetAllMedicine demoServer) ResponseWriter.new
        (demoRequest "" "zz" "" "") World.start =
      some ({ Header := [("Content-Type", "application/json")], cookies := [],
              status := some StatusBadRequest,
              body := [Payload.ApiError "pq: invalid input syntax for type uuid"] },
            { tick := 0, trace := [Effect.GetAllMedicine "zz"] }) ∧
    StatusBadRequest ≠ StatusInternalServerError := by
  refine ⟨rfl, by decide⟩

/-- C7, amended. A handler wrapped by `makeHTTPHandleFunc` that returns an error
gets the JSON error body with that error's message written with status 400; when
the handler had written nothing, the response has status 400 and that body alone.
In particular a failure of the store in `GetAllMedicine`, `DeleteMedicine`,
`CreateMedicine`, `UpdateMedicine` or `CheckEmail` is answered with status 400. -/
theorem C7_handler_error_answers_400 (env : Env) (s : APIServer) (w : ResponseWriter)
    (r : Request) (σ : World) :
    (∀ (f : apiFunc) err w1 σ1, f w r σ = some (some err, w1, σ1) →
      makeHTTPHandleFunc f w r σ =
        some ((WriteJSON w1 StatusBadRequest (Payload.ApiError err.Error)).2, σ1)) ∧
    (∀ (err : GoError), w.status = none → w.body = [] →
      (WriteJSON w StatusBadRequest (Payload.ApiError err.Error)).2.status =
        some StatusBadRequest ∧
      (WriteJSON w StatusBadRequest (Payload.ApiError err.Error)).2.body =
        [Payload.ApiError err.Error]) ∧
    (∀ err, s.store.GetAllMedicine (URLParam r "userId") = .error err →
      makeHTTPHandleFunc (handleGetAllMedicine s) w r σ =
        some ((WriteJSON w StatusBadRequest (Payload.ApiError err.Error)).2,
          σ.log (Effect.GetAllMedicine (URLParam r "userId")))) ∧
    (∀ err, s.store.DeleteMedicine (URLParam r "id") = some err →
      makeHTTPHandleFunc (handleDeleteMedicine s) w r σ =
        some ((WriteJSON w StatusBadRequest (Payload.ApiError err.Error)).2,
          σ.log (Effect.DeleteMedicine (URLParam r "id")))) ∧
    (∀ d err, env.DecodeMedicine r.Body = .ok d →
      s.store.CreateMedicine (NewMedicine env d.Name d.Dosage d.Frequency d.User_ID σ).1 =
        some err →
      ∃ σ1, makeHTTPHandleFunc (handleCreateMedicine env s) w r σ =
        some ((WriteJSON w StatusBadRequest (Payload.ApiError err.Error)).2, σ1)) ∧
    (∀ d err, env.DecodeUpdate r.Body = .ok d →
      s.store.UpdateMedicine (UpdateOldMedicine env d.ID d.Name d.Dosage d.Frequency σ).1 =
        some err →
      ∃ σ1, makeHTTPHandleFunc (handleUpdateMedicine env s) w r σ =
        some ((WriteJSON w StatusBadRequest (Payload.ApiError err.Error)).2, σ1)) ∧
    (∀ d err, env.DecodeLogIn r.Body = .ok d → s.store.CheckEmail d.Email = .error err →
      makeHTTPHandleFunc (handleLogIn env s) w r σ =
        some ((WriteJSON w StatusBadRequest (Payload.ApiError err.Error)).2,
          σ.log (Effect.CheckEmail d.Email))) := by
  refine ⟨?_, ?_, ?_, ?_, ?_, ?_, ?_⟩
  · intro f err w1 σ1 h
    simp [makeHTTPHandleFunc, h]
  · intro err hs hb
    simp [WriteJSON, WriteHeader, hs, hb]
  · intro err h
    simp [makeHTTPHandleFunc, handleGetAllMedicine, h]
  · intro err h
    simp [makeHTTPHandleFunc, handleDeleteMedicine, h]
  · intro d err hd h
    simp [makeHTTPHandleFunc, handleCreateMedicine, hd, h]
  · intro d err hd h
    simp [makeHTTPHandleFunc, handleUpdateMedicine, hd, h]
  · intro d err hd h
    simp [makeHTTPHandleFunc, handleLogIn, hd, h]

/-- C7 on a lookup of the medicines of `zz`, which the database rejects. -/
theorem C7_handler_error_answers_400_witness :
    makeHTTPHandleFunc (handleGetAllMedicine demoServer) ResponseWriter.new
        (demoRequest "" "zz" "" "") World.start =
      some ((WriteJSON ResponseWriter.new StatusBadRequest
          (Payload.ApiError "pq: invalid input syntax for type uuid")).2,
        World.start.log (Effect.GetAllMedicine "zz")) :=
  (C7_handler_error_answers_400 (demoEnv (fun _ => 0)) demoServer ResponseWriter.new
    (demoRequest "" "zz" "" "") World.start).2.2.1
    (GoError.errorString "pq: invalid input syntax for type uuid") rfl

/-! ## Malformed request bodies -/

/-- C8, on the code. When the body of a login request or of a medicine update does
not decode, the handler returns a nil error without writing: the wrapped handler
leaves the response writer and the world as they were, so there is no status 400
and no error body, and no call to the store, the signer or the mail server. -/
theorem C8_malformed_body_writes_nothing (env : Env) (s : APIServer) (w : ResponseWriter)
    (r : Request) (σ : World) :
    (∀ e, env.DecodeLogIn r.Body = .error e →
      handleLogIn env s w r σ = some (none, w, σ) ∧
      makeHTTPHandleFunc (handleLogIn env s) w r σ = some (w, σ)) ∧
    (∀ e, env.DecodeUpdate r.Body = .error e →
      handleUpdateMedicine env s w r σ = some (none, w, σ) ∧
      makeHTTPHandleFunc (handleUpdateMedicine env s) w r σ = some (w, σ)) := by
  constructor
  · intro e h
    simp [makeHTTPHandleFunc, handleLogIn, h]
  · intro e h
    simp [makeHTTPHandleFunc, handleUpdateMedicine, h]

/-- C8 on the body `not json`. -/
theorem C8_malformed_body_writes_nothing_witness :
    (handleLogIn (demoEnv (fun _ => 0)) demoServer ResponseWriter.new
        (bareRequest "not json") World.start = some (none, ResponseWriter.new, World.start) ∧
      makeHTTPHandleFunc (handleLogIn (demoEnv (fun _ => 0)) demoServer) ResponseWriter.new
        (bareRequest "not json") World.start = some (ResponseWriter.new, World.start)) ∧
    (handleUpdateMedicine (demoEnv (fun _ => 0)) demoServer ResponseWriter.new
        (bareRequest "not json") World.start = some (none, ResponseWriter.new, World.start) ∧
      makeHTTPHandleFunc (handleUpdateMedicine (demoEnv (fun _ => 0)) demoServer)
        ResponseWriter.new (bareRequest "not json") World.start =
          some (ResponseWriter.new, World.start)) :=
  ⟨(C8_malformed_body_writes_nothing (demoEnv (fun _ => 0)) demoServer ResponseWriter.new
      (bareRequest "not json") World.start).1
      (GoError.errorString "unexpected end of JSON input") rfl,
   (C8_malformed_body_writes_nothing (demoEnv (fun _ => 0)) demoServer ResponseWriter.new
      (bareRequest "not json") World.start).2 (GoError.errorString "EOF") rfl⟩

/-! ## Login request -/

theorem sendEmailLogin_trace (env : Env) (email token : String) (σ : World) :
    (sendEmailLogin env email token σ).2 =
      σ.log (Effect.SendMail [email] (loginMessage email token)) := by
  unfold sendEmailLogin loginMessage
  cases h : env.SendMail [email] ("To: " ++ email ++ "\r\n" ++ "Subject: Login Link\r\n" ++
      "\r\n" ++ "http://127.0.0.1:8080/login/" ++ token) <;> simp [h]

/-- C9. When the body decodes to an email for which the query of `CheckEmail`
finds no row, `handleLogIn` returns the error `account <email> not found`, which the
wrapper writes as a JSON error response; the only call made is the lookup, so no
token is signed and no mail is sent.  And whenever `handleLogIn` sends a mail, the
recipient is the address of the account the store returned for the decoded email
and the link carries the token signed for that account's id. -/
theorem C9_login_lookup (env : Env) (w : ResponseWriter) (r : Request) (σ : World) :
    (∀ (db : SqlDB) (addr email : String),
      env.DecodeLogIn r.Body = .ok { Email := email } →
      db.QueryRowAccount "select * from users where email = $1;" [SqlArg.str email] =
        .error GoError.ErrNoRows →
      handleLogIn env { listenAddr := addr, store := PostgresStore db } w r σ =
        some (some (GoError.errorString ("account " ++ email ++ " not found")), w,
          { tick := σ.tick, trace := σ.trace ++ [Effect.CheckEmail email] }) ∧
      makeHTTPHandleFunc (handleLogIn env { listenAddr := addr, store := PostgresStore db })
          w r σ =
        some ((WriteJSON w StatusBadRequest
            (Payload.ApiError ("account " ++ email ++ " not found"))).2,
          { tick := σ.tick, trace := σ.trace ++ [Effect.CheckEmail email] })) ∧
    (∀ (s : APIServer) res w1 σ1 rcpt msg,
      handleLogIn env s w r σ = some (res, w1, σ1) →
      Effect.SendMail rcpt msg ∈ σ1.trace → Effect.SendMail rcpt msg ∉ σ.trace →
      ∃ email account, env.DecodeLogIn r.Body = .ok email ∧
        s.store.CheckEmail email.Email = .ok account ∧
        rcpt = [account.Email] ∧
        msg = loginMessage account.Email
          (env.jwt.Encode (mintedClaims account.ID (env.clock σ.tick)))) := by
  constructor
  · intro db addr email hd hq
    have hce : (PostgresStore db).CheckEmail email =
        .error (GoError.errorString ("account " ++ email ++ " not found")) := by
      simp [PostgresStore, PostgresStore.CheckEmail, hq]
    constructor
    · simp [handleLogIn, hd, hce, World.log]
    · simp [makeHTTPHandleFunc, handleLogIn, hd, hce, World.log, GoError.Error]
  · intro s res w1 σ1 rcpt msg h hin hnot
    unfold handleLogIn at h
    cases hd : env.DecodeLogIn r.Body with
    | error e =>
      rw [hd] at h
      simp only [Option.some.injEq, Prod.mk.injEq] at h
      obtain ⟨_, _, rfl⟩ := h
      exact absurd hin hnot
    | ok email =>
      rw [hd] at h
      cases hs : s.store.CheckEmail email.Email with
      | error err =>
        simp only [hs, Option.some.injEq, Prod.mk.injEq] at h
        obtain ⟨_, _, rfl⟩ := h
        simp only [World.log, List.mem_append, List.mem_singleton] at hin
        rcases hin with hin | hin
        · exact absurd hin hnot
        · exact Effect.noConfusion hin
      | ok account =>
        simp only [hs, CreateJWT_eq] at h
        have htr := sendEmailLogin_trace env account.Email
          (env.jwt.Encode (mintedClaims account.ID (env.clock (σ.log (Effect.CheckEmail email.Email)).tick)))
          { tick := (σ.log (Effect.CheckEmail email.Email)).tick + 1,
            trace := (σ.log (Effect.CheckEmail email.Email)).trace ++
              [Effect.SignedString
                (mintedClaims account.ID (env.clock (σ.log (Effect.CheckEmail email.Email)).tick))] }
        rcases hse : sendEmailLogin env account.Email
          (env.jwt.Encode (mintedClaims account.ID (env.clock (σ.log (Effect.CheckEmail email.Email)).tick)))
          { tick := (σ.log (Effect.CheckEmail email.Email)).tick + 1,
            trace := (σ.log (Effect.CheckEmail email.Email)).trace ++
              [Effect.SignedString
                (mintedClaims account.ID (env.clock (σ.log (Effect.CheckEmail email.Email)).tick))] }
          with ⟨e, σ3⟩
        rw [hse] at h htr
        simp only at htr
        have hσ1 : σ1 = σ3 := by
          cases e <;> simp [WriteJSON] at h <;> exact h.2.2.symm
        rw [hσ1, htr] at hin
        simp only [World.log, List.mem_append, List.mem_singleton] at hin
        rcases hin with ((hin | hin) | hin) | hin
        · exact absurd hin hnot
        · exact Effect.noConfusion hin
        · exact Effect.noConfusion hin
        · simp only [Effect.SendMail.injEq] at hin
          exact ⟨email, account, rfl, hs, hin.1, hin.2⟩

/-- C9 on the login request of `nobody@x.com`, for whom the database has no row. -/
theorem C9_login_lookup_witness :
    handleLogIn (demoEnv (fun _ => 0)) { listenAddr := ":8080", store := PostgresStore demoDB }
        ResponseWriter.new (bareRequest "\x7b\"email\":\"nobody@x.com\"\x7d") World.start =
      some (some (GoError.errorString ("account " ++ "nobody@x.com" ++ " not found")),
        ResponseWriter.new,
        { tick := World.start.tick,
          trace := World.start.trace ++ [Effect.CheckEmail "nobody@x.com"] }) ∧
    makeHTTPHandleFunc
        (handleLogIn (demoEnv (fun _ => 0))
          { listenAddr := ":8080", store := PostgresStore demoDB })
        ResponseWriter.new (bareRequest "\x7b\"email\":\"nobody@x.com\"\x7d") World.start =
      some ((WriteJSON ResponseWriter.new StatusBadRequest
          (Payload.ApiError ("account " ++ "nobody@x.com" ++ " not found"))).2,
        { tick := World.start.tick,
          trace := World.start.trace ++ [Effect.CheckEmail "nobody@x.com"] }) :=
  (C9_login_lookup (demoEnv (fun _ => 0)) ResponseWriter.new
    (bareRequest "\x7b\"email\":\"nobody@x.com\"\x7d") World.start).1
    demoDB ":8080" "nobody@x.com" rfl rfl

/-! ## The subject of the token and the medicine routes -/

/-- The status and the document `handleGetAllMedicine` answers with, as decided by
the store alone. -/
theorem handleGetAllMedicine_response (s : APIServer) (w : ResponseWriter) (r : Request)
    (σ : World) :
    ∃ code v, makeHTTPHandleFunc (handleGetAllMedicine s) w r σ =
        some ((WriteJSON w code v).2, σ.log (Effect.GetAllMedicine (URLParam r "userId"))) ∧
      (code, v) =
        (match s.store.GetAllMedicine (URLParam r "userId") with
         | .ok ms => (StatusOK, Payload.medicines ms)
         | .error err => (StatusBadRequest, Payload.ApiError err.Error)) := by
  cases h : s.store.GetAllMedicine (URLParam r "userId") with
  | ok ms =>
    exact ⟨StatusOK, Payload.medicines ms,
      by simp [makeHTTPHandleFunc, handleGetAllMedicine, h, WriteJSON], rfl⟩
  | error err =>
    exact ⟨StatusBadRequest, Payload.ApiError err.Error,
      by simp [makeHTTPHandleFunc, handleGetAllMedicine, h], rfl⟩

theorem WriteJSON_SetCookie (w : ResponseWriter) (ck : Cookie) (code : Nat) (v : Payload) :
    (WriteJSON (SetCookie w ck) code v).2.status = (WriteJSON w code v).2.status ∧
    (WriteJSON (SetCookie w ck) code v).2.body = (WriteJSON w code v).2.body ∧
    (WriteJSON (SetCookie w ck) code v).2.Header = (WriteJSON w code v).2.Header := by
  cases hst : w.status <;> simp [WriteJSON, WriteHeader, SetCookie, hst]

theorem WithJWTAuthStep_forward_of_verified (env : Env) (w : ResponseWriter) (r : Request)
    (σ : World) (c : Cookie) (token : Token)
    (hcookie : r.Cookie "token" = .ok c)
    (hverif : (ParseWithClaims env c.Value σ).1 = (token, none))
    (hexp : token.Claims.ExpiresAt ≠ none) :
    ∃ w1 σ1, WithJWTAuthStep env w r σ = some (Step.forward w1 σ1) ∧
      (w1 = w ∨ ∃ ck, w1 = SetCookie w ck) := by
  obtain ⟨claims, _, _, _, htok, hparse⟩ := ParseWithClaims_ok env c.Value σ token hverif
  subst htok
  obtain ⟨e, he⟩ := Option.ne_none_iff_exists'.1 hexp
  have hstep := WithJWTAuthStep_verified env w r σ c claims e hcookie hparse he
  by_cases h1 : Sub e (env.clock (σ.tick + 1)) ≤ 30 * Second
  · by_cases h2 : Sub e (env.clock (σ.tick + 2)) > 0 * Second
    · rw [if_pos h1, if_pos h2] at hstep
      exact ⟨_, _, hstep, Or.inr ⟨_, rfl⟩⟩
    · rw [if_pos h1, if_neg h2] at hstep
      exact ⟨_, _, hstep, Or.inl rfl⟩
  · rw [if_neg h1] at hstep
    exact ⟨_, _, hstep, Or.inl rfl⟩

/-- The response of the guarded route `GET /medicine/{userId}` to a request whose
token verifies: status, body and header lines are those of the unguarded handler. -/
theorem guarded_GetAllMedicine (env : Env) (s : APIServer) (w : ResponseWriter) (r : Request)
    (σ : World) (c : Cookie) (token : Token)
    (hcookie : r.Cookie "token" = .ok c)
    (hverif : (ParseWithClaims env c.Value σ).1 = (token, none))
    (hexp : token.Claims.ExpiresAt ≠ none) :
    Forwards env w r σ = true ∧
    ∃ wa σa code v, WithJWTAuth env (makeHTTPHandleFunc (handleGetAllMedicine s)) w r σ =
        some (wa, σa) ∧
      wa.status = (WriteJSON w code v).2.status ∧ wa.body = (WriteJSON w code v).2.body ∧
      wa.Header = (WriteJSON w code v).2.Header ∧
      (code, v) =
        (match s.store.GetAllMedicine (URLParam r "userId") with
         | .ok ms => (StatusOK, Payload.medicines ms)
         | .error err => (StatusBadRequest, Payload.ApiError err.Error)) := by
  obtain ⟨w1, σ1, hstep, hw⟩ :=
    WithJWTAuthStep_forward_of_verified env w r σ c token hcookie hverif hexp
  refine ⟨(Forwards_iff env w r σ).2 ⟨w1, σ1, hstep⟩, ?_⟩
  obtain ⟨code, v, hresp, hcv⟩ := handleGetAllMedicine_response s w1 r σ1
  have hmw : WithJWTAuth env (makeHTTPHandleFunc (handleGetAllMedicine s)) w r σ =
      makeHTTPHandleFunc (handleGetAllMedicine s) w1 r σ1 := by
    unfold WithJWTAuth
    rw [hstep]
  refine ⟨_, _, code, v, hmw.trans hresp, ?_, ?_, ?_, hcv⟩
  all_goals
    rcases hw with rfl | ⟨ck, rfl⟩
    · rfl
    · first
        | exact (WriteJSON_SetCookie w ck code v).1
        | exact (WriteJSON_SetCookie w ck code v).2.1
        | exact (WriteJSON_SetCookie w ck code v).2.2

/-- C10. Two requests to `GET /medicine/{userId}` with the same path `userId`
against the same store, each carrying a token that verifies, whatever the subject
of either token: the middleware reaches the handler for both, and the two responses
have the same status, body and header lines; when the store returns the medicines
of that `userId`, both bodies are that list.  Whatever route handler stands behind
the middleware (update and delete by medicine id as well), it is called with the
request as it came and a writer to which at most a renewal cookie was added, so
the subject of the token does not reach it. -/
theorem C10_subject_not_used (env : Env) (s : APIServer) (w : ResponseWriter)
    (r1 r2 : Request) (σ1 σ2 : World) (c1 c2 : Cookie) (token1 token2 : Token)
    (hc1 : r1.Cookie "token" = .ok c1) (hc2 : r2.Cookie "token" = .ok c2)
    (hv1 : (ParseWithClaims env c1.Value σ1).1 = (token1, none))
    (hv2 : (ParseWithClaims env c2.Value σ2).1 = (token2, none))
    (he1 : token1.Claims.ExpiresAt ≠ none) (he2 : token2.Claims.ExpiresAt ≠ none)
    (hid : URLParam r1 "userId" = URLParam r2 "userId") :
    Forwards env w r1 σ1 = true ∧ Forwards env w r2 σ2 = true ∧
    ∃ wa σa wb σb,
      WithJWTAuth env (makeHTTPHandleFunc (handleGetAllMedicine s)) w r1 σ1 = some (wa, σa) ∧
      WithJWTAuth env (makeHTTPHandleFunc (handleGetAllMedicine s)) w r2 σ2 = some (wb, σb) ∧
      wa.status = wb.status ∧ wa.body = wb.body ∧ wa.Header = wb.Header ∧
      (∀ ms, s.store.GetAllMedicine (URLParam r1 "userId") = .ok ms →
        wa.body = w.body ++ [Payload.medicines ms] ∧
        wb.body = w.body ++ [Payload.medicines ms]) ∧
      (∀ next : HandlerFunc, ∃ w1 σ3, WithJWTAuth env next w r1 σ1 = next w1 r1 σ3 ∧
        w1.status = w.status ∧ w1.body = w.body ∧ w1.Header = w.Header) := by
  have hany : ∀ next : HandlerFunc, ∃ w1 σ3, WithJWTAuth env next w r1 σ1 = next w1 r1 σ3 ∧
      w1.status = w.status ∧ w1.body = w.body ∧ w1.Header = w.Header := by
    intro next
    obtain ⟨w1, σ3, hstep, hw⟩ :=
      WithJWTAuthStep_forward_of_verified env w r1 σ1 c1 token1 hc1 hv1 he1
    refine ⟨w1, σ3, ?_, ?_⟩
    · unfold WithJWTAuth
      rw [hstep]
    · rcases hw with rfl | ⟨ck, rfl⟩ <;> exact ⟨rfl, rfl, rfl⟩
  obtain ⟨hf1, wa, σa, code1, v1, hr1, hs1, hb1, hh1, hcv1⟩ :=
    guarded_GetAllMedicine env s w r1 σ1 c1 token1 hc1 hv1 he1
  obtain ⟨hf2, wb, σb, code2, v2, hr2, hs2, hb2, hh2, hcv2⟩ :=
    guarded_GetAllMedicine env s w r2 σ2 c2 token2 hc2 hv2 he2
  rw [← hid] at hcv2
  have hcv : (code1, v1) = (code2, v2) := hcv1.trans hcv2.symm
  simp only [Prod.mk.injEq] at hcv
  obtain ⟨rfl, rfl⟩ := hcv
  refine ⟨hf1, hf2, wa, σa, wb, σb, hr1, hr2, hs1.trans hs2.symm, hb1.trans hb2.symm,
    hh1.trans hh2.symm, ?_, hany⟩
  intro ms hms
  rw [hms] at hcv1
  simp only [Prod.mk.injEq] at hcv1
  obtain ⟨rfl, rfl⟩ := hcv1
  have hbody : (WriteJSON w StatusOK (Payload.medicines ms)).2.body =
      w.body ++ [Payload.medicines ms] := by
    cases hst : w.status <;> simp [WriteJSON, WriteHeader, hst]
  exact ⟨hb1.trans hbody, hb2.trans hbody⟩

/-- C10 on the medicines of `u7`, asked for with the token of `u1` and with the
token of `u2`. -/
theorem C10_subject_not_used_witness :
    Forwards (demoEnv (fun _ => 985 * Second)) ResponseWriter.new
      (demoRequest "tok.u1" "u7" "" "") World.start = true ∧
    Forwards (demoEnv (fun _ => 985 * Second)) ResponseWriter.new
      (demoRequest "tok.u2" "u7" "" "") World.start = true ∧
    ∃ wa σa wb σb,
      WithJWTAuth (demoEnv (fun _ => 985 * Second))
        (makeHTTPHandleFunc (handleGetAllMedicine demoServer)) ResponseWriter.new
        (demoRequest "tok.u1" "u7" "" "") World.start = some (wa, σa) ∧
      WithJWTAuth (demoEnv (fun _ => 985 * Second))
        (makeHTTPHandleFunc (handleGetAllMedicine demoServer)) ResponseWriter.new
        (demoRequest "tok.u2" "u7" "" "") World.start = some (wb, σb) ∧
      wa.status = wb.status ∧ wa.body = wb.body ∧ wa.Header = wb.Header ∧
      (∀ ms, demoServer.store.GetAllMedicine (URLParam (demoRequest "tok.u1" "u7" "" "") "userId") =
          .ok ms →
        wa.body = ResponseWriter.new.body ++ [Payload.medicines ms] ∧
        wb.body = ResponseWriter.new.body ++ [Payload.medicines ms]) ∧
      (∀ next : HandlerFunc, ∃ w1 σ3,
        WithJWTAuth (demoEnv (fun _ => 985 * Second)) next ResponseWriter.new
          (demoRequest "tok.u1" "u7" "" "") World.start =
            next w1 (demoRequest "tok.u1" "u7" "" "") σ3 ∧
        w1.status = ResponseWriter.new.status ∧ w1.body = ResponseWriter.new.body ∧
        w1.Header = ResponseWriter.new.Header) :=
  C10_subject_not_used (demoEnv (fun _ => 985 * Second)) demoServer ResponseWriter.new
    (demoRequest "tok.u1" "u7" "" "") (demoRequest "tok.u2" "u7" "" "") World.start World.start
    { Name := "token", Value := "tok.u1", Path := "", Domain := "", Expires := none, MaxAge := 0 }
    { Name := "token", Value := "tok.u2", Path := "", Domain := "", Expires := none, MaxAge := 0 }
    { Claims := claimsAt "u1" 1030, Valid := true }
    { Claims := claimsAt "u2" 1030, Valid := true }
    rfl rfl rfl rfl (by decide) (by decide) rfl

end MedicineTracker
